import Mathlib

/-!
# AutoVerif-QC contribution pipeline — verification development

A shallow embedding of the contribution pipeline of `backend-app.py`:
the canonical hashed payload (`compute_integrity_hash`), the hash-chained
submission log (`collecte_submit`, `_process_single_submission`), the chain
verification protocol (`collecte_verify`, `collecte_verify_single`), the
odometer-fraud tracker (`track_odometer`), the CSV batch ingest
(`_auto_detect_report_type`, `_csv_row_to_data`, the import loop) and the
photo upload endpoint (`collecte_upload`).

Python values carried in request bodies are modelled by the `Json` type
below.  Machine-level caveats of the embedding are noted where they occur:
floats are outside the `Json` type (all claims use integer payloads), dates
are ISO-8601 strings compared lexicographically (which is how SQL compares
them for ISO dates), and database transactions are modelled by publishing
pending writes at the commit point.
-/

namespace AutoVerif

/-- Python/JSON values as used by the backend.  The embedding has no float
constructor: every payload the claims exercise is integer-valued, and the
backend applies no arithmetic that would coerce ints to floats. -/
inductive Json where
  | null
  | bool (b : Bool)
  | int (n : Int)
  | str (s : String)
  | arr (elems : List Json)
  | obj (pairs : List (String × Json))

/-- Python truthiness (`bool(x)`): `None`, `False`, `0`, `""`, `[]`, `{}`
are falsy, everything else truthy. -/
def truthy : Json → Bool
  | .null => false
  | .bool b => b
  | .int n => n != 0
  | .str s => s ≠ ""
  | .arr xs => ¬ xs.isEmpty
  | .obj kvs => ¬ kvs.isEmpty

/-- `dict.get(k)`: first binding of `k`, if any. -/
def jget (j : Json) (k : String) : Option Json :=
  match j with
  | .obj kvs => (kvs.find? (fun kv => kv.1 = k)).map (·.2)
  | _ => none

/-- `dict.get(k, default)`. -/
def jgetD (j : Json) (k : String) (d : Json) : Json :=
  (jget j k).getD d

/-- Python `x or y`. -/
def pyOr (a b : Json) : Json := if truthy a then a else b

/-- `data.get(k) or None` (also `data.get(k, '') or None`): falsy values
collapse to SQL NULL. -/
def pyOrNone (v : Json) : Json := if truthy v then v else .null

/-- Code-point-lexicographic order on character lists. -/
def strLtL : List Char → List Char → Bool
  | [], [] => false
  | [], _ :: _ => true
  | _ :: _, [] => false
  | a :: as, b :: bs =>
      if a.toNat < b.toNat then true
      else if b.toNat < a.toNat then false
      else strLtL as bs

/-- Python `<` on strings: code-point lexicographic order (the order
`sort_keys=True` sorts by). -/
def strLt (a b : String) : Bool := strLtL a.data b.data

/-- `str.lower()` on the ASCII text the pipeline lowercases (headers,
extensions, report types). -/
def pyLower (s : String) : String := String.mk (s.data.map Char.toLower)

/-- `str.upper()` on the ASCII text the pipeline uppercases (VINs). -/
def pyUpper (s : String) : String := String.mk (s.data.map Char.toUpper)

/-- An ASCII whitespace character. -/
def isSpaceChar (c : Char) : Bool := c.toNat = 32 ∨ (9 ≤ c.toNat ∧ c.toNat ≤ 13)

/-- `str.strip()` on the pipeline's ASCII cells. -/
def pyStrip (s : String) : String :=
  String.mk (((s.data.dropWhile isSpaceChar).reverse.dropWhile isSpaceChar).reverse)

/-- Insert a pair into a key-sorted pair list (Python `sort_keys=True`
sorts by code-point order, which is `String.lt`). -/
def insertPair (p : String × Json) : List (String × Json) → List (String × Json)
  | [] => [p]
  | q :: qs => if strLt p.1 q.1 then p :: q :: qs else q :: insertPair p qs

/-- Sort an object's pairs by key. -/
def sortPairs : List (String × Json) → List (String × Json)
  | [] => []
  | p :: ps => insertPair p (sortPairs ps)

mutual
/-- Recursively sort every object's keys.  `json.dumps(..., sort_keys=True)`
serializes each dict with its keys sorted; pre-sorting the whole tree and
then serializing in the stored order is the same function. -/
def sortJson : Json → Json
  | .null => .null
  | .bool b => .bool b
  | .int n => .int n
  | .str s => .str s
  | .arr xs => .arr (sortJsonList xs)
  | .obj kvs => .obj (sortPairs (sortJsonPairs kvs))

def sortJsonList : List Json → List Json
  | [] => []
  | x :: xs => sortJson x :: sortJsonList xs

def sortJsonPairs : List (String × Json) → List (String × Json)
  | [] => []
  | kv :: kvs => (kv.1, sortJson kv.2) :: sortJsonPairs kvs
end

/-- Lower-case hex digit. -/
def hexDigit (n : Nat) : Char :=
  if n < 10 then Char.ofNat (48 + n) else Char.ofNat (87 + n)

/-- Four lower-case hex digits, as Python's `\uXXXX` escapes print them. -/
def hex4 (n : Nat) : String :=
  String.mk [hexDigit (n / 4096 % 16), hexDigit (n / 256 % 16),
             hexDigit (n / 16 % 16), hexDigit (n % 16)]

/-- One character of Python's JSON string encoder with `ensure_ascii=False`:
quote and backslash are escaped, control characters use the short escapes
or `\uXXXX`, and everything else — non-ASCII included — passes through. -/
def escapeChar (c : Char) : String :=
  if c = Char.ofNat 34 then "\\\""
  else if c = Char.ofNat 92 then "\\\\"
  else if c = Char.ofNat 8 then "\\b"
  else if c = Char.ofNat 9 then "\\t"
  else if c = Char.ofNat 10 then "\\n"
  else if c = Char.ofNat 12 then "\\f"
  else if c = Char.ofNat 13 then "\\r"
  else if c.toNat < 32 then "\\u" ++ hex4 c.toNat
  else String.mk [c]

/-- A JSON string literal as Python emits it with `ensure_ascii=False`. -/
def quoteStr (s : String) : String :=
  "\"" ++ String.join (s.data.map escapeChar) ++ "\""

mutual
/-- Serialize a (pre-key-sorted) `Json` value with the given item and
key separators.  Python's `json.dumps` defaults are `", "` and `": "`;
compact form is `","` and `":"`. -/
def dumpsRaw (isep ksep : String) : Json → String
  | .null => "null"
  | .bool b => if b then "true" else "false"
  | .int n => toString n
  | .str s => quoteStr s
  | .arr xs => "[" ++ dumpsRawList isep ksep xs ++ "]"
  | .obj kvs => "\x7b" ++ dumpsRawPairs isep ksep kvs ++ "\x7d"

def dumpsRawList (isep ksep : String) : List Json → String
  | [] => ""
  | [x] => dumpsRaw isep ksep x
  | x :: y :: xs => dumpsRaw isep ksep x ++ isep ++ dumpsRawList isep ksep (y :: xs)

def dumpsRawPairs (isep ksep : String) : List (String × Json) → String
  | [] => ""
  | [kv] => quoteStr kv.1 ++ ksep ++ dumpsRaw isep ksep kv.2
  | kv :: kv2 :: kvs =>
      quoteStr kv.1 ++ ksep ++ dumpsRaw isep ksep kv.2 ++ isep ++
        dumpsRawPairs isep ksep (kv2 :: kvs)
end

/-- `json.dumps(j, sort_keys=True, ensure_ascii=False)` — note the default
separators `", "` and `": "`: the output contains a space after every comma
and colon. -/
def dumps (j : Json) : String := dumpsRaw ", " ": " (sortJson j)

/-- UTF-8 encoding of one character. -/
def utf8Char (c : Char) : List Nat :=
  let n := c.toNat
  if n < 128 then [n]
  else if n < 2048 then [192 + n / 64, 128 + n % 64]
  else if n < 65536 then [224 + n / 4096, 128 + n / 64 % 64, 128 + n % 64]
  else [240 + n / 262144, 128 + n / 4096 % 64, 128 + n / 64 % 64, 128 + n % 64]

/-- `str.encode('utf-8')` as a byte list. -/
def utf8Encode (s : String) : List Nat :=
  s.data.flatMap utf8Char

/- ## SHA-256 over byte lists -/

/-- Truncated addition modulo 2^32. -/
def add32 (a b : Nat) : Nat := (a + b) % 4294967296

/-- Right rotation of a 32-bit word. -/
def rotr32 (x n : Nat) : Nat :=
  (x / 2 ^ n + x % 2 ^ n * 2 ^ (32 - n)) % 4294967296

/-- Bitwise complement of a 32-bit word. -/
def not32 (x : Nat) : Nat := 4294967295 - x

def sha256K : List Nat :=
  [1116352408, 1899447441, 3049323471, 3921009573, 961987163,
   1508970993, 2453635748, 2870763221, 3624381080, 310598401,
   607225278, 1426881987, 1925078388, 2162078206, 2614888103,
   3248222580, 3835390401, 4022224774, 264347078, 604807628,
   770255983, 1249150122, 1555081692, 1996064986, 2554220882,
   2821834349, 2952996808, 3210313671, 3336571891, 3584528711,
   113926993, 338241895, 666307205, 773529912, 1294757372,
   1396182291, 1695183700, 1986661051, 2177026350, 2456956037,
   2730485921, 2820302411, 3259730800, 3345764771, 3516065817,
   3600352804, 4094571909, 275423344, 430227734, 506948616,
   659060556, 883997877, 958139571, 1322822218, 1537002063,
   1747873779, 1955562222, 2024104815, 2227730452, 2361852424,
   2428436474, 2756734187, 3204031479, 3329325298]

/-- SHA-256 message padding: `0x80`, zeros to 56 mod 64, then the bit
length as 8 big-endian bytes. -/
def sha256Pad (msg : List Nat) : List Nat :=
  let len := msg.length
  let zeros := (119 - len % 64) % 64
  let bits := len * 8
  msg ++ [128] ++ List.replicate zeros 0 ++
    [bits / 2 ^ 56 % 256, bits / 2 ^ 48 % 256, bits / 2 ^ 40 % 256,
     bits / 2 ^ 32 % 256, bits / 2 ^ 24 % 256, bits / 2 ^ 16 % 256,
     bits / 2 ^ 8 % 256, bits % 256]

/-- Big-endian 32-bit words from bytes. -/
def bytesToWords : List Nat → List Nat
  | b0 :: b1 :: b2 :: b3 :: rest =>
      (b0 * 16777216 + b1 * 65536 + b2 * 256 + b3) :: bytesToWords rest
  | _ => []

/-- Split a word list into blocks of 16 (the padded message is always a
whole number of 64-byte chunks). -/
def group16 : List Nat → List (List Nat)
  | w0 :: w1 :: w2 :: w3 :: w4 :: w5 :: w6 :: w7 ::
    w8 :: w9 :: w10 :: w11 :: w12 :: w13 :: w14 :: w15 :: rest =>
      [w0, w1, w2, w3, w4, w5, w6, w7, w8, w9, w10, w11, w12, w13, w14, w15] ::
        group16 rest
  | _ => []

/-- 64-byte chunks, as word lists of 16. -/
def chunks64 (bs : List Nat) : List (List Nat) :=
  group16 (bytesToWords bs)

/-- Extend a 16-word block to the 64-word message schedule.  `w` holds the
schedule so far in reverse order. -/
def sha256Extend : Nat → List Nat → List Nat
  | 0, w => w
  | n + 1, w =>
      let w15 := w.getD 14 0
      let w2 := w.getD 1 0
      let w16 := w.getD 15 0
      let w7 := w.getD 6 0
      let s0 := (rotr32 w15 7).xor ((rotr32 w15 18).xor (w15 / 2 ^ 3))
      let s1 := (rotr32 w2 17).xor ((rotr32 w2 19).xor (w2 / 2 ^ 10))
      sha256Extend n (add32 (add32 w16 s0) (add32 w7 s1) :: w)

/-- Eight-word working state. -/
structure Sha256State where
  a : Nat
  b : Nat
  c : Nat
  d : Nat
  e : Nat
  f : Nat
  g : Nat
  h : Nat

/-- One compression round. -/
def sha256Round (st : Sha256State) (kw : Nat × Nat) : Sha256State :=
  let s1 := (rotr32 st.e 6).xor ((rotr32 st.e 11).xor (rotr32 st.e 25))
  let ch := (st.e.land st.f).xor ((not32 st.e).land st.g)
  let t1 := add32 (add32 st.h s1) (add32 ch (add32 kw.1 kw.2))
  let s0 := (rotr32 st.a 2).xor ((rotr32 st.a 13).xor (rotr32 st.a 22))
  let maj := (st.a.land st.b).xor ((st.a.land st.c).xor (st.b.land st.c))
  let t2 := add32 s0 maj
  ⟨add32 t1 t2, st.a, st.b, st.c, add32 st.d t1, st.e, st.f, st.g⟩

/-- Compress one 16-word chunk into the running state. -/
def sha256Chunk (st : Sha256State) (chunk : List Nat) : Sha256State :=
  let w := (sha256Extend 48 chunk.reverse).reverse
  let r := (sha256K.zip w).foldl sha256Round st
  ⟨add32 st.a r.a, add32 st.b r.b, add32 st.c r.c, add32 st.d r.d,
   add32 st.e r.e, add32 st.f r.f, add32 st.g r.g, add32 st.h r.h⟩

def sha256Init : Sha256State :=
  ⟨1779033703, 3144134277, 1013904242,
   2773480762, 1359893119, 2600822924,
   528734635, 1541459225⟩

/-- Big-endian bytes of a 32-bit word. -/
def wordBytes (w : Nat) : List Nat :=
  [w / 16777216 % 256, w / 65536 % 256, w / 256 % 256, w % 256]

/-- SHA-256 digest (32 bytes) of a byte list. -/
def sha256 (msg : List Nat) : List Nat :=
  let st := (chunks64 (sha256Pad msg)).foldl sha256Chunk sha256Init
  [st.a, st.b, st.c, st.d, st.e, st.f, st.g, st.h].flatMap wordBytes

/-- Two lower-case hex digits of a byte. -/
def byteHex (b : Nat) : List Char :=
  [hexDigit (b / 16 % 16), hexDigit (b % 16)]

/-- `hashlib.sha256(bytes).hexdigest()`: lower-case hex of the digest. -/
def sha256Hex (msg : List Nat) : String :=
  String.mk ((sha256 msg).flatMap byteHex)

/- ## Small Python helpers -/

/-- Digit accumulator for `int(str)`: `none` until at least one digit. -/
def parseDigits : List Char → Option Nat → Option Nat
  | [], acc => acc
  | c :: cs, acc =>
      if c.isDigit then parseDigits cs (some ((acc.getD 0) * 10 + (c.toNat - 48)))
      else none

/-- Python `int(s)` on an already-stripped string: optional sign, digits. -/
def parseIntStr (s : String) : Option Int :=
  match s.data with
  | [] => none
  | c :: cs =>
      if c = Char.ofNat 45 then (parseDigits cs none).map (fun n => -(n : Int))
      else if c = Char.ofNat 43 then (parseDigits cs none).map (fun n => (n : Int))
      else (parseDigits (c :: cs) none).map (fun n => (n : Int))

/-- Python `int(x)` on the value kinds the pipeline feeds it. -/
def pyToInt : Json → Option Int
  | .int n => some n
  | .bool b => some (if b then 1 else 0)
  | .str s => parseIntStr (pyStrip s)
  | _ => none

/-- A VIN character: `[A-HJ-NPR-Z0-9]` (no I, O, Q). -/
def validVinChar (c : Char) : Bool :=
  ( 'A' ≤ c && c ≤ 'Z' && c ≠ 'I' && c ≠ 'O' && c ≠ 'Q') || c.isDigit

/-- `validate_vin`: exactly 17 characters matching `^[A-HJ-NPR-Z0-9]{17}$`. -/
def validate_vin (vin : String) : Bool :=
  vin.length = 17 && vin.data.all validVinChar

/-- The closed set of report types accepted by the submit endpoints. -/
def valid_types : List String :=
  ["accident", "service", "ownership", "inspection", "recall_completion",
   "title_brand", "lien", "theft", "obd_diagnostic", "auction",
   "fleet_history", "import_export", "emissions", "modification"]

/- ## compute_integrity_hash -/

/-- `compute_integrity_hash`: SHA-256 (lower-case hex) of the UTF-8 bytes of
`json.dumps({'id':…, 'vin':…, 'type':…, 'data':…, 'prev': previous_hash or
'GENESIS', 'ts':…}, sort_keys=True, ensure_ascii=False)`. -/
def compute_integrity_hash (submission_id : Nat) (vin report_type : String)
    (data_snapshot : Json) (previous_hash : Option String) (timestamp : String) : String :=
  let prev : String := match previous_hash with
    | some p => if p = "" then "GENESIS" else p
    | none => "GENESIS"
  let payload := dumps (Json.obj
    [("id", .int (submission_id : Int)), ("vin", .str vin),
     ("type", .str report_type), ("data", data_snapshot),
     ("prev", .str prev), ("ts", .str timestamp)])
  sha256Hex (utf8Encode payload)

/- ## Data model

Rows as the submit pipeline writes them.  Columns that never influence a
claim (`vehicle_id`, the `status` column defaulting to `pending`, created
timestamps filled by the database) are omitted. -/

/-- A row of the `submissions` table. -/
structure Submission where
  id : Nat
  vin : String
  report_type : String
  submitted_by_name : Json
  submitted_by_email : Json
  submitted_by_type : Json
  submitted_by_company : Json
  ip_address : String
  data_snapshot : Json
  previous_hash : Option String
  integrity_hash : Option String
  submitted_at : String

/-- A row of `odometer_readings`.  `reading_date` is an ISO-8601 date
string; SQL compares ISO dates exactly as strings compare. -/
structure OdoReading where
  id : Nat
  vin : String
  submission_id : Option Nat
  reading_date : String
  odometer_km : Int
  odometer_unit : String
  source : String
  ecu_reading : Option Int
  fraud_flag : Bool
  fraud_reason : Option String
deriving DecidableEq

/-- A row of `audit_log`. -/
structure AuditEntry where
  action : String
  target_table : String
  target_id : Option Nat
  details : Json
  ip_address : Option String

/-- A typed detail row: the detail table's name and its inserted columns,
in the order of the SQL INSERT. -/
structure DetailRow where
  table : String
  cols : List (String × Json)

/-- Value of one column of a detail row. -/
def colVal (d : DetailRow) (c : String) : Option Json :=
  (d.cols.find? (fun kv => kv.1 = c)).map (·.2)

/-- The whole store.  `nextSubmissionId` / `nextOdometerId` model the
Postgres sequences behind `RETURNING id` (sequences advance even when the
enclosing transaction rolls back).  The vehicles table is modelled by its
VIN column only; decoded attributes never feed back into the pipeline. -/
structure State where
  vehicles : List String
  submissions : List Submission
  details : List DetailRow
  odometer : List OdoReading
  audit : List AuditEntry
  nextSubmissionId : Nat
  nextOdometerId : Nat

/-- The empty store; serial sequences start at 1. -/
def initState : State := ⟨[], [], [], [], [], 1, 1⟩

/- ## Detail-row insert (`_insert_detail`; `collecte_submit` inlines the
same fourteen branches verbatim) -/

/-- `data.get(k)` — may be SQL NULL. -/
def fieldRaw (data : Json) (k : String) : Json := jgetD data k .null

/-- `data.get(k) or None`. -/
def fieldOrNull (data : Json) (k : String) : Json := pyOrNone (jgetD data k .null)

/-- `data.get(k, '') or None`. -/
def fieldStrOrNull (data : Json) (k : String) : Json :=
  pyOrNone (jgetD data k (.str ""))

/-- `data.get(k, '<default>')`. -/
def fieldStr (data : Json) (k : String) (d : String) : Json := jgetD data k (.str d)

/-- `data.get(k, <bool default>)`. -/
def fieldBool (data : Json) (k : String) (d : Bool) : Json := jgetD data k (.bool d)

/-- `json.dumps(data.get(k, {})) if data.get(k) else None`. -/
def fieldJsonDump (data : Json) (k : String) : Json :=
  if truthy (jgetD data k .null) then .str (dumps (jgetD data k (.obj []))) else .null

def _insert_detail (submission_id : Nat) (report_type : String) (data : Json) :
    Option DetailRow :=
  let sid : Json := .int (submission_id : Int)
  if report_type = "accident" then some ⟨"accident_reports",
    [("submission_id", sid),
     ("accident_date", fieldRaw data "date"),
     ("severity", fieldStr data "severity" "minor"),
     ("impact_point", fieldStr data "impact_point" "front"),
     ("airbag_deployed", fieldBool data "airbag_deployed" false),
     ("structural_damage", fieldBool data "structural_damage" false),
     ("estimated_cost", fieldOrNull data "estimated_cost"),
     ("description", fieldStr data "description" ""),
     ("odometer_km", fieldOrNull data "odometer_km"),
     ("flood_damage", fieldBool data "flood_damage" false),
     ("fire_damage", fieldBool data "fire_damage" false),
     ("theft_vandalism", fieldBool data "theft_vandalism" false),
     ("towing_required", fieldBool data "towing_required" false),
     ("drivable", fieldBool data "drivable" true),
     ("total_loss", fieldBool data "total_loss" false),
     ("police_report_number", fieldStrOrNull data "police_report_number"),
     ("insurance_claim_number", fieldStrOrNull data "insurance_claim_number"),
     ("insurance_company", fieldStrOrNull data "insurance_company"),
     ("rollover", fieldBool data "rollover" false),
     ("hail_damage", fieldBool data "hail_damage" false),
     ("accident_location", fieldStrOrNull data "accident_location")]⟩
  else if report_type = "service" then some ⟨"service_records",
    [("submission_id", sid),
     ("service_date", fieldRaw data "date"),
     ("odometer_km", fieldOrNull data "odometer_km"),
     ("service_type", fieldStr data "service_type" "other"),
     ("facility_name", fieldStr data "facility_name" ""),
     ("description", fieldStr data "description" ""),
     ("cost", fieldOrNull data "cost"),
     ("parts_type", fieldStr data "parts_type" "na"),
     ("ev_battery_soh", fieldOrNull data "ev_battery_soh"),
     ("ev_battery_kwh", fieldOrNull data "ev_battery_kwh"),
     ("ev_service_type", fieldStrOrNull data "ev_service_type")]⟩
  else if report_type = "ownership" then some ⟨"ownership_changes",
    [("submission_id", sid),
     ("change_date", fieldRaw data "date"),
     ("previous_owner_type", fieldStr data "previous_owner_type" "unknown"),
     ("new_owner_type", fieldStr data "new_owner_type" "unknown"),
     ("province", fieldStr data "province" "QC"),
     ("sale_price", fieldOrNull data "sale_price"),
     ("odometer_km", fieldOrNull data "odometer_km"),
     ("title_brand", fieldStrOrNull data "title_brand"),
     ("usage_type", fieldStrOrNull data "usage_type")]⟩
  else if report_type = "inspection" then some ⟨"inspections",
    [("submission_id", sid),
     ("inspection_date", fieldRaw data "date"),
     ("result", fieldStr data "result" "pass"),
     ("odometer_km", fieldOrNull data "odometer_km"),
     ("notes", fieldStr data "notes" ""),
     ("inspection_type", fieldStr data "inspection_type" "saaq_mecanique"),
     ("inspector_name", fieldStrOrNull data "inspector_name"),
     ("facility_name", fieldStrOrNull data "facility_name"),
     ("facility_permit", fieldStrOrNull data "facility_permit")]⟩
  else if report_type = "recall_completion" then some ⟨"recall_completions",
    [("submission_id", sid),
     ("recall_number", fieldStr data "recall_number" ""),
     ("completion_date", fieldRaw data "date"),
     ("facility_name", fieldStr data "facility_name" ""),
     ("recall_description", fieldStrOrNull data "recall_description"),
     ("component", fieldStrOrNull data "component"),
     ("remedy_type", fieldStrOrNull data "remedy_type"),
     ("odometer_km", fieldOrNull data "odometer_km")]⟩
  else if report_type = "title_brand" then some ⟨"title_brands",
    [("submission_id", sid),
     ("brand_date", fieldRaw data "date"),
     ("brand_type", fieldStr data "brand_type" "clean"),
     ("province", fieldStr data "province" "QC"),
     ("previous_brand", fieldStrOrNull data "previous_brand"),
     ("insurance_company", fieldStrOrNull data "insurance_company"),
     ("total_loss_amount", fieldOrNull data "total_loss_amount"),
     ("source", fieldStrOrNull data "source"),
     ("notes", fieldStr data "notes" "")]⟩
  else if report_type = "lien" then some ⟨"liens",
    [("submission_id", sid),
     ("lien_holder", fieldStr data "lien_holder" ""),
     ("lien_type", fieldStrOrNull data "lien_type"),
     ("lien_amount", fieldOrNull data "lien_amount"),
     ("registration_date", fieldOrNull data "registration_date"),
     ("discharge_date", fieldOrNull data "discharge_date"),
     ("lien_status", fieldStr data "lien_status" "active"),
     ("province", fieldStr data "province" "QC"),
     ("registration_number", fieldStrOrNull data "registration_number"),
     ("notes", fieldStr data "notes" "")]⟩
  else if report_type = "theft" then some ⟨"theft_records",
    [("submission_id", sid),
     ("date_stolen", fieldRaw data "date_stolen"),
     ("police_report_number", fieldStrOrNull data "police_report_number"),
     ("police_jurisdiction", fieldStrOrNull data "police_jurisdiction"),
     ("date_recovered", fieldOrNull data "date_recovered"),
     ("recovery_location", fieldStrOrNull data "recovery_location"),
     ("condition_at_recovery", fieldStrOrNull data "condition_at_recovery"),
     ("parts_missing", fieldStrOrNull data "parts_missing"),
     ("insurance_claim", fieldBool data "insurance_claim" false),
     ("notes", fieldStr data "notes" "")]⟩
  else if report_type = "obd_diagnostic" then some ⟨"obd_diagnostics",
    [("submission_id", sid),
     ("scan_date", fieldRaw data "date"),
     ("odometer_km", fieldOrNull data "odometer_km"),
     ("scan_tool", fieldStrOrNull data "scan_tool"),
     ("mil_status", fieldBool data "mil_status" false),
     ("dtc_active", fieldStrOrNull data "dtc_active"),
     ("dtc_pending", fieldStrOrNull data "dtc_pending"),
     ("dtc_permanent", fieldStrOrNull data "dtc_permanent"),
     ("readiness_monitors", fieldJsonDump data "readiness_monitors"),
     ("ecu_odometer_km", fieldOrNull data "ecu_odometer_km"),
     ("freeze_frame", fieldJsonDump data "freeze_frame"),
     ("notes", fieldStr data "notes" "")]⟩
  else if report_type = "auction" then some ⟨"auction_records",
    [("submission_id", sid),
     ("auction_date", fieldRaw data "date"),
     ("auction_house", fieldStrOrNull data "auction_house"),
     ("auction_location", fieldStrOrNull data "auction_location"),
     ("lot_number", fieldStrOrNull data "lot_number"),
     ("sale_type", fieldStrOrNull data "sale_type"),
     ("seller_type", fieldStrOrNull data "seller_type"),
     ("naaa_grade", fieldOrNull data "naaa_grade"),
     ("exterior_grade", fieldStrOrNull data "exterior_grade"),
     ("interior_grade", fieldStrOrNull data "interior_grade"),
     ("mechanical_grade", fieldStrOrNull data "mechanical_grade"),
     ("tire_tread_fl", fieldOrNull data "tire_tread_fl"),
     ("tire_tread_fr", fieldOrNull data "tire_tread_fr"),
     ("tire_tread_rl", fieldOrNull data "tire_tread_rl"),
     ("tire_tread_rr", fieldOrNull data "tire_tread_rr"),
     ("odor", fieldStrOrNull data "odor"),
     ("keys_count", fieldOrNull data "keys_count"),
     ("run_drive", fieldBool data "run_drive" true),
     ("sale_price", fieldOrNull data "sale_price"),
     ("damage_announcements", fieldStrOrNull data "damage_announcements"),
     ("notes", fieldStr data "notes" "")]⟩
  else if report_type = "fleet_history" then some ⟨"fleet_history",
    [("submission_id", sid),
     ("usage_type", fieldStr data "usage_type" ""),
     ("company_name", fieldStrOrNull data "company_name"),
     ("date_entered", fieldOrNull data "date_entered"),
     ("date_left", fieldOrNull data "date_left"),
     ("mileage_during", fieldOrNull data "mileage_during"),
     ("estimated_drivers", fieldOrNull data "estimated_drivers"),
     ("province", fieldStr data "province" "QC"),
     ("notes", fieldStr data "notes" "")]⟩
  else if report_type = "import_export" then some ⟨"import_export_records",
    [("submission_id", sid),
     ("direction", fieldStr data "direction" "import"),
     ("country_origin", fieldStrOrNull data "country_origin"),
     ("country_destination", fieldStrOrNull data "country_destination"),
     ("transfer_date", fieldOrNull data "date"),
     ("riv_number", fieldStrOrNull data "riv_number"),
     ("customs_declaration", fieldStrOrNull data "customs_declaration"),
     ("odometer_at_import", fieldOrNull data "odometer_at_import"),
     ("odometer_unit", fieldStr data "odometer_unit" "km"),
     ("tc_compliance", fieldBool data "tc_compliance" false),
     ("recalls_cleared", fieldBool data "recalls_cleared" false),
     ("notes", fieldStr data "notes" "")]⟩
  else if report_type = "emissions" then some ⟨"emissions_tests",
    [("submission_id", sid),
     ("test_date", fieldRaw data "date"),
     ("test_type", fieldStrOrNull data "test_type"),
     ("result", fieldStr data "result" "pass"),
     ("station_name", fieldStrOrNull data "station_name"),
     ("station_number", fieldStrOrNull data "station_number"),
     ("inspector_id", fieldStrOrNull data "inspector_id"),
     ("hc_ppm", fieldOrNull data "hc_ppm"),
     ("co_percent", fieldOrNull data "co_percent"),
     ("nox_ppm", fieldOrNull data "nox_ppm"),
     ("co2_percent", fieldOrNull data "co2_percent"),
     ("o2_percent", fieldOrNull data "o2_percent"),
     ("certificate_number", fieldStrOrNull data "certificate_number"),
     ("certificate_expiry", fieldOrNull data "certificate_expiry"),
     ("exemption_reason", fieldStrOrNull data "exemption_reason"),
     ("notes", fieldStr data "notes" "")]⟩
  else if report_type = "modification" then some ⟨"vehicle_modifications",
    [("submission_id", sid),
     ("mod_date", fieldRaw data "date"),
     ("mod_type", fieldStr data "mod_type" ""),
     ("description", fieldStr data "description" ""),
     ("part_brand", fieldStrOrNull data "part_brand"),
     ("part_number", fieldStrOrNull data "part_number"),
     ("installed_by", fieldStrOrNull data "installed_by"),
     ("homologated", fieldBool data "homologated" false),
     ("saaq_approved", fieldBool data "saaq_approved" false),
     ("insurance_notified", fieldBool data "insurance_notified" false),
     ("notes", fieldStr data "notes" "")]⟩
  else none

/- ## OdometerTracker (`track_odometer`) -/

/-- The later reading under `ORDER BY reading_date DESC, id DESC`. -/
def pickLater (acc : Option OdoReading) (r : OdoReading) : Option OdoReading :=
  match acc with
  | none => some r
  | some b =>
      if b.reading_date < r.reading_date ∨
          (b.reading_date = r.reading_date ∧ b.id < r.id)
      then some r else some b

/-- `SELECT odometer_km, reading_date FROM odometer_readings WHERE vin = %s
ORDER BY reading_date DESC, id DESC LIMIT 1`. -/
def latestReading (readings : List OdoReading) (vin : String) : Option OdoReading :=
  (readings.filter (fun r => r.vin = vin)).foldl pickLater none

/-- `track_odometer`: no-op for `km ≤ 0` (Python: `not odometer_km or
odometer_km <= 0`); otherwise checks the rollback rule against the latest
prior reading, the ECU-mismatch rule (`ecu_reading and abs(...) > 5000`,
so an ECU value of 0 is falsy and never fires), inserts exactly one
reading, and on a fraud flag appends an `odometer_fraud_alert` audit
entry.  `today` stands for `datetime.now().date()`. -/
def track_odometer (st : State) (vin : String) (odometer_km : Int) (source : String)
    (submission_id : Option Nat) (reading_date : Option String) (unit : String)
    (ecu_reading : Option Int) (today : String) : State :=
  if odometer_km ≤ 0 then st
  else
    let prev := latestReading st.odometer vin
    let step1 : Bool × Option String :=
      match prev with
      | some p =>
          if p.odometer_km ≠ 0 ∧ odometer_km < p.odometer_km then
            (true, some ("Rollback suspect: " ++ toString odometer_km ++
              " km < precedent " ++ toString p.odometer_km ++ " km"))
          else (false, none)
      | none => (false, none)
    let step2 : Bool × Option String :=
      match ecu_reading with
      | some e =>
          if e ≠ 0 ∧ 5000 < (e - odometer_km).natAbs then
            (true, some ((step1.2.getD "") ++ " ECU mismatch: ECU=" ++ toString e ++
              " vs declared=" ++ toString odometer_km))
          else step1
      | none => step1
    let r : OdoReading :=
      ⟨st.nextOdometerId, vin, submission_id, reading_date.getD today, odometer_km,
       unit, source, ecu_reading, step2.1, step2.2⟩
    let st1 := { st with odometer := st.odometer ++ [r],
                         nextOdometerId := st.nextOdometerId + 1 }
    if step2.1 then
      { st1 with audit := st1.audit ++
          [⟨"odometer_fraud_alert", "odometer_readings", submission_id,
            Json.obj [("vin", .str vin), ("reading", .int odometer_km),
              ("reason", match step2.2 with | some s => .str s | none => .null)],
            none⟩] }
    else st1

/- ## Chain tip and vehicle registry -/

/-- `SELECT id …` keeping the row with the greatest id. -/
def pickMaxId (acc : Option Submission) (s : Submission) : Option Submission :=
  match acc with
  | none => some s
  | some b => if b.id < s.id then some s else some b

/-- `SELECT integrity_hash FROM submissions WHERE integrity_hash IS NOT NULL
ORDER BY id DESC LIMIT 1`. -/
def get_last_hash (subs : List Submission) : Option String :=
  ((subs.filter (fun s => s.integrity_hash.isSome)).foldl pickMaxId none).bind
    (·.integrity_hash)

/-- `get_or_create_vehicle`: existing VIN row, else insert one when the
external decoder (`dec`, the abstract VinDecoder) yields attributes, else
`None`.  The vehicle insert commits on its own connection, so it persists
regardless of what happens to the submission transaction. -/
def get_or_create_vehicle (dec : String → Bool) (st : State) (vin : String) :
    State × Bool :=
  if st.vehicles.contains vin then (st, true)
  else if dec vin then ({ st with vehicles := st.vehicles ++ [vin] }, true)
  else (st, false)

/- ## The submit transaction -/

/-- Failure injection for claim C6-style statements: which database
statement of the submit path raises.  `atHashUpdate` and `atDetailInsert`
raise inside the open transaction (before `conn.commit()`); the odometer
insert and the audit insert run on their own connections after the commit
and their exceptions are swallowed by their callees. -/
inductive FailPoint where
  | nofail
  | atHashUpdate
  | atDetailInsert
  | atOdometerInsert
  | atAuditInsert
deriving DecidableEq

/-- Outcome of the submit endpoints. -/
inductive SubmitOutcome where
  | ok (submission_id : Nat) (integrity_hash : String)
  | err (status : Nat) (msg : String)
deriving DecidableEq

def SubmitOutcome.isOk : SubmitOutcome → Bool
  | .ok _ _ => true
  | .err _ _ => false

/-- `data.get('date')` as the tracker's `reading_date` argument: a falsy or
non-string value behaves as absent (dates are strings in this embedding). -/
def rdOf (v : Json) : Option String :=
  match v with
  | .str s => if s = "" then none else some s
  | _ => none

/-- `data.get('ecu_odometer_km')` as the tracker's numeric argument. -/
def ecuOf (v : Json) : Option Int :=
  match v with
  | .int n => some n
  | .bool b => some (if b then 1 else 0)
  | _ => none

/-- The immutable `data_snapshot` built at step 3 of the algorithm. -/
def data_snapshotOf (vin report_type : String) (submitter data : Json)
    (ip now : String) : Json :=
  Json.obj
    [("vin", .str vin), ("report_type", .str report_type),
     ("submitter", submitter), ("data", data),
     ("submitted_at", .str now), ("ip", .str ip)]

/-- The submission row as it stands after the insert (with `previous_hash`
set to the chain tip) and the in-transaction `UPDATE` that fills
`integrity_hash`. -/
def submitRow (st : State) (vin report_type : String) (submitter data : Json)
    (ip now : String) : Submission :=
  let previous_hash := get_last_hash st.submissions
  let snap := data_snapshotOf vin report_type submitter data ip now
  ⟨st.nextSubmissionId, vin, report_type,
   jgetD submitter "name" (.str ""), jgetD submitter "email" (.str ""),
   jgetD submitter "type" (.str ""), jgetD submitter "company" (.str ""),
   ip, snap, previous_hash,
   some (compute_integrity_hash st.nextSubmissionId vin report_type snap
     previous_hash now),
   now⟩

/-- The store once the transaction commits: the submission row with its
hash, and its detail row. -/
def commitState (st : State) (vin report_type : String) (submitter data : Json)
    (ip now : String) : State :=
  { st with
    nextSubmissionId := st.nextSubmissionId + 1,
    submissions := st.submissions ++ [submitRow st vin report_type submitter data ip now],
    details := st.details ++
      (match _insert_detail st.nextSubmissionId report_type data with
       | some d => [d]
       | none => []) }

/-- Steps 8–9 of the algorithm, run after `conn.commit()`: the odometer
side-effect (`data.get('odometer_km') or data.get('odometer_at_import')`,
tracked only when truthy; a non-numeric value makes `int()` raise after
the commit, so the handler returns a 500 while the committed row stays)
and the `submission_created` audit append.  Both run on their own
connections; an injected failure there leaves the committed store as the
respective helper swallows its exception. -/
def postCommit (fp : FailPoint) (st2 : State) (submission_id : Nat)
    (vin report_type : String) (data : Json) (ip today : String)
    (integrity_hash : String) : State × SubmitOutcome :=
  let odo_val := pyOr (jgetD data "odometer_km" .null)
    (jgetD data "odometer_at_import" .null)
  let afterOdo : Option State :=
    if truthy odo_val then
      match pyToInt odo_val with
      | none => none
      | some km =>
          some (if fp = .atOdometerInsert then st2
            else track_odometer st2 vin km ("submission_" ++ report_type)
              (some submission_id) (rdOf (jgetD data "date" .null)) "km"
              (ecuOf (jgetD data "ecu_odometer_km" .null)) today)
    else some st2
  match afterOdo with
  | none => (st2, .err 500 "Erreur serveur")
  | some st3 =>
      let st4 :=
        if fp = .atAuditInsert then st3
        else { st3 with audit := st3.audit ++
          [⟨"submission_created", "submissions", some submission_id,
            Json.obj [("report_type", .str report_type), ("vin", .str vin),
              ("hash", .str integrity_hash)],
            some ip⟩] }
      (st4, .ok submission_id integrity_hash)

/-- The body shared verbatim by `collecte_submit` and
`_process_single_submission` once validation and the vehicle upsert have
passed: read the chain tip, build the snapshot, insert the submission row
(consuming a serial id), compute and store the integrity hash, insert the
detail row, commit, then run the post-commit odometer side-effect and the
audit append.  Writes before the commit are published only at the commit;
a `FailPoint` before the commit discards them and returns a 500. -/
def submitCoreF (fp : FailPoint) (st : State) (vin report_type : String)
    (submitter data : Json) (ip now today : String) : State × SubmitOutcome :=
  let submission_id := st.nextSubmissionId
  if fp = .atHashUpdate ∨ fp = .atDetailInsert then
    ({ st with nextSubmissionId := submission_id + 1 }, .err 500 "Erreur serveur")
  else
    postCommit fp (commitState st vin report_type submitter data ip now)
      submission_id vin report_type data ip today
      (compute_integrity_hash submission_id vin report_type
        (data_snapshotOf vin report_type submitter data ip now)
        (get_last_hash st.submissions) now)

/-- `POST /api/collecte/submit` after body parsing: VIN check, report-type
check, vehicle upsert, then the shared transaction body. -/
def collecte_submitF (fp : FailPoint) (dec : String → Bool) (st : State)
    (vinRaw report_type : String) (submitter data : Json) (ip now today : String) :
    State × SubmitOutcome :=
  let vin := pyUpper (pyStrip vinRaw)
  if ¬ validate_vin vin then (st, .err 400 "VIN invalide.")
  else if ¬ valid_types.contains report_type then
    (st, .err 400 ("Type invalide. Valides: " ++ String.intercalate ", " valid_types))
  else
    match get_or_create_vehicle dec st vin with
    | (st1, false) => (st1, .err 404 "Impossible de décoder ce VIN.")
    | (st1, true) => submitCoreF fp st1 vin report_type submitter data ip now today

/-- `collecte_submit` on the no-failure path. -/
def collecte_submit (dec : String → Bool) (st : State)
    (vinRaw report_type : String) (submitter data : Json) (ip now today : String) :
    State × SubmitOutcome :=
  collecte_submitF .nofail dec st vinRaw report_type submitter data ip now today

/-- Outcome dictionary of `_process_single_submission`. -/
inductive ProcOutcome where
  | ok (submission_id : Nat) (integrity_hash : String)
  | fail (error : String)
deriving DecidableEq

def ProcOutcome.isOk : ProcOutcome → Bool
  | .ok _ _ => true
  | .fail _ => false

/-- `_process_single_submission`: the batch-facing wrapper around the same
transaction body, with its own error strings. -/
def _process_single_submissionF (fp : FailPoint) (dec : String → Bool) (st : State)
    (vinRaw report_type : String) (submitter data : Json) (ip now today : String) :
    State × ProcOutcome :=
  let vin := pyUpper (pyStrip vinRaw)
  if ¬ validate_vin vin then (st, .fail ("VIN invalide: " ++ vin))
  else if ¬ valid_types.contains report_type then
    (st, .fail ("Type invalide: " ++ report_type))
  else
    match get_or_create_vehicle dec st vin with
    | (st1, false) => (st1, .fail ("Impossible de décoder VIN: " ++ vin))
    | (st1, true) =>
        match submitCoreF fp st1 vin report_type submitter data ip now today with
        | (st2, .ok sid h) => (st2, .ok sid h)
        | (st2, .err _ m) => (st2, .fail m)

/- ## Chain verification (`collecte_verify`, `collecte_verify_single`) -/

/-- One reported anomaly. -/
structure BrokenLink where
  id : Nat
  error : String
  detail : String
deriving DecidableEq

/-- Python `s[:12]`. -/
def take12 (s : String) : String := s.take 12

/-- Python `prev_hash or "null"` in the chain-break message. -/
def prevOrNullStr (p : Option String) : String :=
  match p with
  | some s => if s = "" then "null" else s
  | none => "null"

/-- The timestamp the verifier recomputes with:
`snapshot_data.get('submitted_at', <row timestamp>)`.  The stored snapshot
round-trips through `json.dumps`/`json.loads` unchanged, so the stored
`Json` value is used directly; a non-string value under `submitted_at` is
outside this embedding and falls back like an absent key. -/
def tsFromSnapshot (snap : Json) (fallback : String) : String :=
  match jget snap "submitted_at" with
  | some (Json.str t) => t
  | some _ => fallback
  | none => fallback

/-- Insert a submission into an id-sorted list (`ORDER BY id ASC`). -/
def insertById (s : Submission) : List Submission → List Submission
  | [] => [s]
  | t :: ts => if s.id ≤ t.id then s :: t :: ts else t :: insertById s ts

/-- Sort submissions by id ascending. -/
def sortById : List Submission → List Submission
  | [] => []
  | s :: ss => insertById s (sortById ss)

/-- The scan loop of `collecte_verify` over the id-ordered hashed rows:
a `chain_break` when the stored `previous_hash` differs from the previous
row's stored hash (skipped for the first row, where `expected_prev` is
`None`), then a `hash_mismatch` when the hash recomputed from the stored
fields differs from the stored hash; the running expectation is always the
*stored* hash of the row just scanned. -/
def verifyLoop : Option String → List Submission → List BrokenLink
  | _, [] => []
  | expected, r :: rest =>
      let cb : List BrokenLink :=
        if r.previous_hash ≠ expected then
          match expected with
          | some e =>
              [⟨r.id, "chain_break",
                "previous_hash ne correspond pas (attendu: " ++ take12 e ++
                  "..., trouvé: " ++ take12 (prevOrNullStr r.previous_hash) ++ "...)"⟩]
          | none => []
        else []
      let stored := r.integrity_hash.getD ""
      let ts := tsFromSnapshot r.data_snapshot r.submitted_at
      let recomputed :=
        compute_integrity_hash r.id r.vin r.report_type r.data_snapshot
          r.previous_hash ts
      let hm : List BrokenLink :=
        if recomputed ≠ stored then
          [⟨r.id, "hash_mismatch",
            "Hash recalculé ne correspond pas (stocké: " ++ take12 stored ++
              "..., calculé: " ++ take12 recomputed ++ "...)"⟩]
        else []
      cb ++ hm ++ verifyLoop (some stored) rest

/-- Response of `GET /api/collecte/verify`.  On an empty chain the endpoint
returns early with `valid=true` and `chain_length=0` (its JSON omits the
`broken_links` key; the empty list models that no anomaly is reported). -/
structure VerifyAllResult where
  valid : Bool
  chain_length : Nat
  last_hash : Option String
  broken_links : List BrokenLink
deriving DecidableEq

/-- `collecte_verify`: scan all submissions with a hash in id order. -/
def collecte_verify (subs : List Submission) : VerifyAllResult :=
  let rows := sortById (subs.filter (fun s => s.integrity_hash.isSome))
  match rows with
  | [] => ⟨true, 0, none, []⟩
  | _ =>
      let broken := verifyLoop none rows
      ⟨broken.isEmpty, rows.length, (rows.getLast?).bind (·.integrity_hash), broken⟩

/-- Response of `GET /api/collecte/verify/<id>`. -/
inductive VerifySingleResult where
  | notFound
  | noHash (submission_id : Nat)
  | checked (valid : Bool) (submission_id : Nat) (integrity_hash : String)
deriving DecidableEq

/-- `collecte_verify_single`: recompute and compare one submission. -/
def collecte_verify_single (subs : List Submission) (submission_id : Nat) :
    VerifySingleResult :=
  match subs.find? (fun s => s.id = submission_id) with
  | none => .notFound
  | some s =>
      match s.integrity_hash with
      | none => .noHash s.id
      | some stored =>
          let ts := tsFromSnapshot s.data_snapshot s.submitted_at
          let recomputed :=
            compute_integrity_hash s.id s.vin s.report_type s.data_snapshot
              s.previous_hash ts
          .checked (recomputed = stored) s.id stored

/- ## CSV ingest -/

/-- One parsed CSV row: the column/value pairs of `csv.DictReader`. -/
def Row : Type := List (String × String)

/-- `row.get(k, '')` on a parsed row (an absent column is falsy, like an
empty value). -/
def rget (row : Row) (k : String) : String :=
  ((row.find? (fun kv => kv.1 = k)).map (·.2)).getD ""

/-- `{k.lower().strip(): v.strip() if v else '' for k, v in row.items()}`. -/
def normalizeRow (row : Row) : Row :=
  row.map (fun kv => (pyLower (pyStrip kv.1), pyStrip kv.2))

/-- `_auto_detect_report_type`: explicit `report_type` column wins, else
the ordered column heuristic, defaulting to `service`. -/
def _auto_detect_report_type (row : Row) : String :=
  if rget row "report_type" ≠ "" then pyLower (pyStrip (rget row "report_type"))
  else if rget row "severity" ≠ "" ∨ rget row "impact_point" ≠ "" ∨
      rget row "airbag_deployed" ≠ "" then "accident"
  else if rget row "service_type" ≠ "" ∨
      (rget row "facility_name" ≠ "" ∧ rget row "cost" ≠ "") then "service"
  else if rget row "previous_owner_type" ≠ "" ∨ rget row "new_owner_type" ≠ "" ∨
      rget row "sale_price" ≠ "" then "ownership"
  else if rget row "result" ≠ "" ∧
      (rget row "result" = "pass" ∨ rget row "result" = "fail") then "inspection"
  else if rget row "recall_number" ≠ "" then "recall_completion"
  else if rget row "date" ≠ "" ∧ rget row "odometer_km" ≠ "" then "service"
  else "service"

/-- Numeric CSV cell: Python runs `float(val) if '.' in val else int(val)`
and drops the field on `ValueError`.  Floats are outside this embedding's
`Json`, so a value containing a dot is treated as unrepresentable and
dropped; every claim exercises integer cells only. -/
def parseNumField (val : String) : Option Json :=
  if val.contains '.' then none
  else (parseIntStr val).map Json.int

/-- Python `row[k].strip().lower() in ('true', '1', 'oui', 'yes')`. -/
def parseCsvBool (val : String) : Bool :=
  let v := pyLower (pyStrip val)
  v = "true" ∨ v = "1" ∨ v = "oui" ∨ v = "yes"

/-- Add a string field when the column is non-empty. -/
def addStrField (row : Row) (acc : List (String × Json)) (k : String) :
    List (String × Json) :=
  if rget row k ≠ "" then acc ++ [(k, .str (pyStrip (rget row k)))] else acc

/-- Add a boolean field when the column is non-empty. -/
def addBoolField (row : Row) (acc : List (String × Json)) (k : String) :
    List (String × Json) :=
  if rget row k ≠ "" then acc ++ [(k, .bool (parseCsvBool (rget row k)))] else acc

/-- Add a numeric field when the column is non-empty and parses. -/
def addNumField (row : Row) (acc : List (String × Json)) (k : String) :
    List (String × Json) :=
  if rget row k ≠ "" then
    match parseNumField (pyStrip (rget row k)) with
    | some j => acc ++ [(k, j)]
    | none => acc
  else acc

/-- `_csv_row_to_data`: map CSV columns to the `data` dict fed to
`_process_single_submission` — the six common fields, then the
type-specific fields.  Python parses `estimated_cost` and `sale_price`
with `float(...)`; as with every numeric cell, the integer-valued case is
what the claims exercise and is modelled by `parseNumField`. -/
def _csv_row_to_data (row : Row) (report_type : String) : Json :=
  let common :=
    addNumField row (addNumField row
      (addStrField row (addStrField row (addStrField row (addStrField row []
        "date") "description") "notes") "facility_name")
      "odometer_km") "cost"
  let specific : List (String × Json) :=
    if report_type = "accident" then
      addNumField row
        (List.foldl (addBoolField row)
          (List.foldl (addStrField row) []
            ["severity", "impact_point", "police_report_number",
             "insurance_company", "insurance_claim_number", "accident_location"])
          ["airbag_deployed", "structural_damage", "flood_damage", "fire_damage",
           "towing_required", "drivable", "total_loss", "rollover", "hail_damage"])
        "estimated_cost"
    else if report_type = "service" then
      List.foldl (addStrField row) [] ["service_type", "parts_type"]
    else if report_type = "ownership" then
      addNumField row
        (List.foldl (addStrField row) []
          ["previous_owner_type", "new_owner_type", "province", "usage_type",
           "title_brand"])
        "sale_price"
    else if report_type = "inspection" then
      List.foldl (addStrField row) []
        ["result", "inspection_type", "inspector_name", "facility_permit"]
    else if report_type = "recall_completion" then
      List.foldl (addStrField row) []
        ["recall_number", "recall_description", "component", "remedy_type"]
    else []
  Json.obj (common ++ specific)

/-- A `results` entry of the CSV import response. -/
structure CsvSuccess where
  row : Nat
  vin : String
  type : String
  submission_id : Nat
deriving DecidableEq

/-- An `errors` entry of the CSV import response (the missing-VIN entry
carries no `vin` key). -/
structure CsvError where
  row : Nat
  vin : Option String
  error : String
deriving DecidableEq

/-- The per-row loop of `collecte_import_csv`: normalise the row, skip to
an error entry when the VIN cell is empty, otherwise detect the type, build
the data dict and run `_process_single_submission` as its own transaction;
a failed row is collected and the loop continues.  Row numbers are the
CSV line numbers `i + 2`. -/
def processCsvRows (dec : String → Bool) (submitter : Json) (ip now today : String) :
    State → Nat → List Row → State × List CsvSuccess × List CsvError
  | st, _, [] => (st, [], [])
  | st, i, row :: rest =>
      let nrow := normalizeRow row
      let vin := pyUpper (rget nrow "vin")
      if vin = "" then
        let (st2, rs, es) := processCsvRows dec submitter ip now today st (i + 1) rest
        (st2, rs, ⟨i + 2, none, "VIN manquant"⟩ :: es)
      else
        let report_type := _auto_detect_report_type nrow
        let data := _csv_row_to_data nrow report_type
        match _process_single_submissionF .nofail dec st vin report_type submitter
            data ip now today with
        | (st1, .ok sid _) =>
            let (st2, rs, es) :=
              processCsvRows dec submitter ip now today st1 (i + 1) rest
            (st2, ⟨i + 2, vin, report_type, sid⟩ :: rs, es)
        | (st1, .fail msg) =>
            let (st2, rs, es) :=
              processCsvRows dec submitter ip now today st1 (i + 1) rest
            (st2, rs, ⟨i + 2, some vin, msg⟩ :: es)

/- ## Photo upload (`collecte_upload`) -/

def ALLOWED_EXTENSIONS : List String := ["png", "jpg", "jpeg", "webp"]

def MAX_FILE_SIZE : Nat := 5 * 1024 * 1024

/-- One file of the multipart request. -/
structure UploadFile where
  filename : String
  size : Nat
deriving DecidableEq

/-- Characters after the last dot (`rsplit('.', 1)[-1]`). -/
def afterLastDotAux : List Char → List Char → List Char
  | [], acc => acc
  | c :: rest, acc =>
      if c = Char.ofNat 46 then afterLastDotAux rest []
      else afterLastDotAux rest (acc ++ [c])

/-- `filename.rsplit('.', 1)[-1].lower() if '.' in filename else ''`. -/
def extOf (filename : String) : String :=
  if filename.data.contains (Char.ofNat 46) then
    pyLower (String.mk (afterLastDotAux filename.data []))
  else ""

/-- An accepted file as the response lists it.  The random stored name
(`uuid4().hex`) and the `secure_filename` sanitisation are I/O details
outside the embedding; the original name, size and extension are kept. -/
structure UploadedFile where
  original : String
  size : Nat
  ext : String
deriving DecidableEq

/-- Response of `POST /api/collecte/upload`. -/
inductive UploadResult where
  | err (status : Nat) (msg : String)
  | ok (files : List UploadedFile)
deriving DecidableEq

/-- The per-file loop: files with an empty name, a disallowed extension or
a size over 5 MiB are skipped with `continue` — they produce no entry and
no error. -/
def uploadLoop : List UploadFile → List UploadedFile
  | [] => []
  | f :: fs =>
      if f.filename = "" then uploadLoop fs
      else
        let ext := extOf f.filename
        if ¬ ALLOWED_EXTENSIONS.contains ext then uploadLoop fs
        else if MAX_FILE_SIZE < f.size then uploadLoop fs
        else ⟨f.filename, f.size, ext⟩ :: uploadLoop fs

/-- `collecte_upload`: 400 only when no file was sent or more than five
were; otherwise 200 with the accepted files. -/
def collecte_upload (files : List UploadFile) : UploadResult :=
  if files.isEmpty then .err 400 "Aucun fichier envoyé."
  else if 5 < files.length then .err 400 "Maximum 5 fichiers par soumission."
  else .ok (uploadLoop files)

/-- Whether the response is an HTTP 400 error. -/
def UploadResult.is400 : UploadResult → Bool
  | .err 400 _ => true
  | _ => false

/- ## The chain invariant

Every state reachable through the submit endpoints keeps the submissions
list in id order, every row's stored hash recomputable from its stored
fields, and every row's `previous_hash` equal to its predecessor's stored
hash. -/

/-- The stored hash of a row is the canonical hash of its stored fields,
and the snapshot carries the row's timestamp under `submitted_at`. -/
def RowHashOk (s : Submission) : Prop :=
  s.integrity_hash = some (compute_integrity_hash s.id s.vin s.report_type
    s.data_snapshot s.previous_hash s.submitted_at)
  ∧ jget s.data_snapshot "submitted_at" = some (.str s.submitted_at)

/-- The chain shape from an expected predecessor hash and a lower id
bound. -/
def chainOk : Option String → Nat → List Submission → Prop
  | _, _, [] => True
  | prev, lo, s :: rest =>
      lo ≤ s.id ∧ s.previous_hash = prev ∧ RowHashOk s ∧
        chainOk s.integrity_hash (s.id + 1) rest

/-- The hash a new appendix must chain to. -/
def chainTip (prev : Option String) : List Submission → Option String
  | [] => prev
  | s :: rest => chainTip s.integrity_hash rest

/-- Invariant of reachable states. -/
def StateInv (st : State) : Prop :=
  chainOk none 0 st.submissions
  ∧ (∀ s ∈ st.submissions, s.id < st.nextSubmissionId)
  ∧ (∀ r ∈ st.odometer, 0 < r.odometer_km)

/-- States built from the empty store by the submit endpoints (single
submit and the batch-facing row processor), with any decoder behaviour,
any request contents and any injected failure. -/
inductive Reachable : State → Prop where
  | init : Reachable initState
  | stepSubmit (fp : FailPoint) (dec : String → Bool) (st : State)
      (vinRaw report_type : String) (submitter data : Json) (ip now today : String) :
      Reachable st →
      Reachable (collecte_submitF fp dec st vinRaw report_type submitter data
        ip now today).1
  | stepBatchRow (fp : FailPoint) (dec : String → Bool) (st : State)
      (vinRaw report_type : String) (submitter data : Json) (ip now today : String) :
      Reachable st →
      Reachable (_process_single_submissionF fp dec st vinRaw report_type submitter
        data ip now today).1

/- ## Claim-side definitions

Each definition in this block renders a sentence of the specification (or
of a frozen claim) in its own words, to be compared against the embedded
code above. -/

/-- The §4.2 canonical payload as the specification words it: the six keys
written out in lexicographic order (`data`, `id`, `prev`, `ts`, `type`,
`vin`), with the given item and key separators, non-ASCII preserved. -/
def claimPayloadWith (isep ksep : String) (submission_id : Nat)
    (vin report_type : String) (data_snapshot : Json) (prev timestamp : String) :
    String :=
  dumpsRaw isep ksep (Json.obj
    [("data", sortJson data_snapshot), ("id", .int (submission_id : Int)),
     ("prev", .str prev), ("ts", .str timestamp),
     ("type", .str report_type), ("vin", .str vin)])

/-- The hash exactly as claim C1 states it: *no whitespace* — compact
separators — with `prev` the previous hash, or the literal `GENESIS` when
there is no predecessor. -/
def claimCanonicalHash (submission_id : Nat) (vin report_type : String)
    (data_snapshot : Json) (previous_hash : Option String) (timestamp : String) :
    String :=
  sha256Hex (utf8Encode (claimPayloadWith "," ":" submission_id vin report_type
    data_snapshot (previous_hash.getD "GENESIS") timestamp))

/-- The hash per the amended claim: the same payload serialized with
Python's default `json.dumps` separators — a space after every comma and
every colon. -/
def amendedCanonicalHash (submission_id : Nat) (vin report_type : String)
    (data_snapshot : Json) (previous_hash : Option String) (timestamp : String) :
    String :=
  sha256Hex (utf8Encode (claimPayloadWith ", " ": " submission_id vin report_type
    data_snapshot (previous_hash.getD "GENESIS") timestamp))

/-- A lower-case hex character. -/
def isHexLower (c : Char) : Bool :=
  ( '0' ≤ c && c ≤ '9') || ( 'a' ≤ c && c ≤ 'f')

/-- Out-of-band mutation of one stored row's `data_snapshot`, its hash and
every other column left untouched (claim C4). -/
def tamperSnapshot (subs : List Submission) (k : Nat) (snap2 : Json) :
    List Submission :=
  subs.map (fun s => if s.id = k then { s with data_snapshot := snap2 } else s)

/-- `(id, error)` projection of the reported anomalies. -/
def brokenPairs (r : VerifyAllResult) : List (Nat × String) :=
  r.broken_links.map (fun b => (b.id, b.error))

/-- The §4.3 rollback reason string. -/
def rollbackMsg (km pkm : Int) : String :=
  "Rollback suspect: " ++ toString km ++ " km < precedent " ++ toString pkm ++ " km"

/-- The §4.3 ECU-mismatch reason string (with its leading space, as the
code appends it). -/
def ecuMsg (e km : Int) : String :=
  " ECU mismatch: ECU=" ++ toString e ++ " vs declared=" ++ toString km

/-- The fraud reason claim C5 (amended) predicts: the rollback reason when
the rollback rule fires, with the ECU reason appended to it (or to the
empty string) when the ECU rule fires. -/
def expectedReason (readings : List OdoReading) (vin : String) (km : Int)
    (ecu : Option Int) : Option String :=
  let roll : Option String :=
    match latestReading readings vin with
    | some p => if km < p.odometer_km then some (rollbackMsg km p.odometer_km)
                else none
    | none => none
  match ecu with
  | some e =>
      if e ≠ 0 ∧ 5000 < (e - km).natAbs then some ((roll.getD "") ++ ecuMsg e km)
      else roll
  | none => roll

/-- The report-type heuristic exactly as claim C8 lists it, step by step. -/
def autoDetectSpec (row : Row) : String :=
  if rget row "severity" ≠ "" ∨ rget row "impact_point" ≠ "" ∨
      rget row "airbag_deployed" ≠ "" then "accident"
  else if rget row "service_type" ≠ "" ∨
      (rget row "facility_name" ≠ "" ∧ rget row "cost" ≠ "") then "service"
  else if rget row "previous_owner_type" ≠ "" ∨ rget row "new_owner_type" ≠ "" ∨
      rget row "sale_price" ≠ "" then "ownership"
  else if rget row "result" = "pass" ∨ rget row "result" = "fail" then "inspection"
  else if rget row "recall_number" ≠ "" then "recall_completion"
  else if rget row "date" ≠ "" ∧ rget row "odometer_km" ≠ "" then "service"
  else "service"

/-- Which files the amended claim C9 says are kept: non-empty name, allowed
extension, size at most 5 MiB. -/
def acceptSpec (f : UploadFile) : Option UploadedFile :=
  if f.filename ≠ "" ∧ extOf f.filename ∈ ALLOWED_EXTENSIONS ∧
      f.size ≤ MAX_FILE_SIZE
  then some ⟨f.filename, f.size, extOf f.filename⟩
  else none

/-- The VIN cell of a CSV row as the import loop reads it. -/
def rowVin (row : Row) : String := pyUpper (rget (normalizeRow row) "vin")

/-- A row on which `_process_single_submission` succeeds: a present, valid
VIN, a detected type in the closed set, and a decoder that accepts the
VIN. -/
def RowGood (dec : String → Bool) (row : Row) : Prop :=
  rowVin row ≠ "" ∧ validate_vin (pyUpper (pyStrip (rowVin row))) ∧
  valid_types.contains (_auto_detect_report_type (normalizeRow row)) ∧
  dec (pyUpper (pyStrip (rowVin row))) = true

/-- A row whose VIN cell is present but malformed. -/
def RowBadVin (row : Row) : Prop :=
  rowVin row ≠ "" ∧ ¬ validate_vin (pyUpper (pyStrip (rowVin row)))

/-- The per-pair property the loop safety needs: the only odometer-bearing
key `_csv_row_to_data` can produce is an integer `odometer_km`, and it
never produces `odometer_at_import` at all. -/
def OdoFieldOk (kv : String × Json) : Prop :=
  (kv.1 = "odometer_km" → ∃ n, kv.2 = Json.int n) ∧ kv.1 ≠ "odometer_at_import"

/- ## Concrete fixtures for witnesses and counterexamples -/

/-- A decoder that recognises every VIN. -/
def decAll : String → Bool := fun _ => true

def vinC : String := "2HGFC2F59MH528491"

def submitterC : Json := .obj [("name", .str "A")]

def dataC : Json := .obj
  [("cost", .int 89), ("date", .str "2025-06-15"),
   ("odometer_km", .int 45000), ("service_type", .str "oil_change")]

def dataC2 : Json := .obj
  [("cost", .int 650), ("date", .str "2025-08-01"),
   ("odometer_km", .int 50000), ("service_type", .str "brakes")]

def nowC : String := "2025-06-15T10:00:00"

def nowC2 : String := "2025-08-01T10:00:00"

/-- One successful submission on the empty store. -/
def stC1 : State :=
  (collecte_submitF .nofail decAll initState vinC "service" submitterC dataC
    "1.2.3.4" nowC "2025-06-15").1

/-- A second successful submission for the same VIN. -/
def stC2 : State :=
  (collecte_submitF .nofail decAll stC1 vinC "service" submitterC dataC2
    "1.2.3.4" nowC2 "2025-08-01").1

/-- Submission 1's snapshot with `data.cost` rewritten from 89 to 1
(the §8 S5 tamper scenario). -/
def snapTampered : Json :=
  data_snapshotOf vinC "service" submitterC
    (.obj [("cost", .int 1), ("date", .str "2025-06-15"),
           ("odometer_km", .int 45000), ("service_type", .str "oil_change")])
    "1.2.3.4" nowC

/-- The two-submission store with submission 1 tampered. -/
def tamperedSubs : List Submission := tamperSnapshot stC2.submissions 1 snapTampered

/-- Placeholder row for `headD`. -/
def defaultSub : Submission :=
  ⟨0, "", "", .null, .null, .null, .null, "", .null, none, none, ""⟩

/-- The first stored submission of the two-submission store. -/
def subC1 : Submission := stC2.submissions.headD defaultSub

example : sha256Hex (utf8Encode "abc") =
    "ba7816bf8f01cfea414140de5dae2223b00361a396177a9cb410ff61f20015ad" := by
  decide

example : sha256Hex (utf8Encode "") =
    "e3b0c44298fc1c149afbf4c8996fb92427ae41e4649b934ca495991b7852b855" := by
  decide

theorem chainOk_ids_le : ∀ (l : List Submission) (prev : Option String) (lo : Nat),
    chainOk prev lo l → ∀ s ∈ l, lo ≤ s.id := by
  intro l
  induction l with
  | nil => intro prev lo _ s hs; cases hs
  | cons a t ih =>
      intro prev lo h s hs
      obtain ⟨hlo, _, _, ht⟩ := h
      rcases List.mem_cons.mp hs with rfl | hs
      · omega
      · have := ih _ _ ht s hs
        omega

theorem chainOk_sorted : ∀ (l : List Submission) (prev : Option String) (lo : Nat),
    chainOk prev lo l → List.Chain' (fun a b => a.id < b.id) l := by
  intro l
  induction l with
  | nil => intro _ _ _; simp
  | cons a t ih =>
      intro prev lo h
      obtain ⟨_, _, _, ht⟩ := h
      refine List.chain'_cons'.mpr ⟨?_, ih _ _ ht⟩
      intro b hb
      have hmem : b ∈ t := by
        cases t with
        | nil => simp at hb
        | cons c u => simp [List.head?] at hb; simp [hb]
      have := chainOk_ids_le t _ _ ht b hmem
      omega

theorem chainOk_hash_some : ∀ (l : List Submission) (prev : Option String) (lo : Nat),
    chainOk prev lo l → ∀ s ∈ l, s.integrity_hash.isSome := by
  intro l
  induction l with
  | nil => intro _ _ _ s hs; cases hs
  | cons a t ih =>
      intro prev lo h s hs
      obtain ⟨_, _, hrow, ht⟩ := h
      rcases List.mem_cons.mp hs with rfl | hs
      · simp [hrow.1]
      · exact ih _ _ ht s hs

theorem chainOk_links : ∀ (l : List Submission) (prev : Option String) (lo : Nat),
    chainOk prev lo l →
    List.Chain' (fun a b => b.previous_hash = a.integrity_hash) l := by
  intro l
  induction l with
  | nil => intro _ _ _; simp
  | cons a t ih =>
      intro prev lo h
      obtain ⟨_, _, _, ht⟩ := h
      refine List.chain'_cons'.mpr ⟨?_, ih _ _ ht⟩
      intro b hb
      cases t with
      | nil => simp at hb
      | cons c u =>
          simp [List.head?] at hb
          obtain ⟨_, hc, _, _⟩ := ht
          rw [hb] at hc
          exact hc

theorem chainOk_tail_prev_some_aux : ∀ (l : List Submission) (x : String) (lo : Nat),
    chainOk (some x) lo l → ∀ s ∈ l, s.previous_hash.isSome := by
  intro l
  induction l with
  | nil => intro _ _ _ s hs; cases hs
  | cons a t ih =>
      intro x lo h s hs
      obtain ⟨_, hprev, hrow, ht⟩ := h
      rcases List.mem_cons.mp hs with rfl | hs
      · simp [hprev]
      · rw [hrow.1] at ht
        exact ih _ _ ht s hs

theorem chainOk_tail_prev_some (l : List Submission) (prev : Option String) (lo : Nat)
    (h : chainOk prev lo l) : ∀ s ∈ l.tail, s.previous_hash.isSome := by
  cases l with
  | nil => intro s hs; cases hs
  | cons a t =>
      obtain ⟨_, _, hrow, ht⟩ := h
      rw [hrow.1] at ht
      exact chainOk_tail_prev_some_aux t _ _ ht

theorem chainOk_append : ∀ (l : List Submission) (prev : Option String) (lo : Nat)
    (sub : Submission), chainOk prev lo l →
    sub.previous_hash = chainTip prev l →
    (∀ s ∈ l, s.id < sub.id) → lo ≤ sub.id → RowHashOk sub →
    chainOk prev lo (l ++ [sub]) := by
  intro l
  induction l with
  | nil =>
      intro prev lo sub _ hprev _ hlo hrow
      exact ⟨hlo, hprev, hrow, trivial⟩
  | cons a t ih =>
      intro prev lo sub h hprev hid hlo hrow
      obtain ⟨h1, h2, h3, h4⟩ := h
      refine ⟨h1, h2, h3, ih _ _ _ h4 hprev ?_ ?_ hrow⟩
      · intro s hs; exact hid s (List.mem_cons_of_mem _ hs)
      · have := hid a (List.mem_cons_self _ _); omega

theorem chainTip_eq_getLast : ∀ (l : List Submission) (prev : Option String),
    chainTip prev l = ((l.getLast?).map (·.integrity_hash)).getD prev := by
  intro l
  induction l with
  | nil => intro prev; rfl
  | cons a t ih =>
      intro prev
      cases t with
      | nil => rfl
      | cons b u =>
          show chainTip a.integrity_hash (b :: u) = _
          rw [ih a.integrity_hash, List.getLast?_cons_cons]
          cases hlast : (b :: u).getLast? with
          | none => simp at hlast
          | some s => rfl

theorem foldl_pickMaxId_sorted : ∀ (l : List Submission) (a : Submission),
    List.Chain' (fun x y => x.id < y.id) (a :: l) →
    List.foldl pickMaxId (some a) l = (a :: l).getLast? := by
  intro l
  induction l with
  | nil => intro a _; rfl
  | cons b t ih =>
      intro a hch
      have hab : a.id < b.id := (List.chain'_cons.mp hch).1
      have hstep : pickMaxId (some a) b = some b := by
        simp [pickMaxId, hab]
      rw [List.getLast?_cons_cons]
      calc List.foldl pickMaxId (some a) (b :: t)
          = List.foldl pickMaxId (some b) t := by rw [List.foldl_cons, hstep]
        _ = (b :: t).getLast? := ih b (List.chain'_cons.mp hch).2

theorem get_last_hash_eq_chainTip (l : List Submission) (h : chainOk none 0 l) :
    get_last_hash l = chainTip none l := by
  cases l with
  | nil => rfl
  | cons a t =>
      have hsome : ∀ s ∈ a :: t, s.integrity_hash.isSome :=
        chainOk_hash_some _ _ _ h
      have hfil : (a :: t).filter (fun s => s.integrity_hash.isSome) = a :: t :=
        List.filter_eq_self.mpr (by intro s hs; simpa using hsome s hs)
      have hsort := chainOk_sorted _ _ _ h
      unfold get_last_hash
      rw [hfil, List.foldl_cons,
        show pickMaxId none a = some a from rfl,
        foldl_pickMaxId_sorted t a hsort, chainTip_eq_getLast]
      cases hlast : (a :: t).getLast? with
      | none => simp at hlast
      | some s => rfl

/- ## Preservation of the invariant -/

theorem track_submissions_eq (st : State) (vin : String) (km : Int) (source : String)
    (sid : Option Nat) (rd : Option String) (unit : String) (ecu : Option Int)
    (today : String) :
    (track_odometer st vin km source sid rd unit ecu today).submissions =
      st.submissions := by
  unfold track_odometer
  split
  · rfl
  · dsimp only
    split <;> rfl

theorem track_nextSubmissionId_eq (st : State) (vin : String) (km : Int)
    (source : String) (sid : Option Nat) (rd : Option String) (unit : String)
    (ecu : Option Int) (today : String) :
    (track_odometer st vin km source sid rd unit ecu today).nextSubmissionId =
      st.nextSubmissionId := by
  unfold track_odometer
  split
  · rfl
  · dsimp only
    split <;> rfl

theorem track_odometer_pos (st : State) (vin : String) (km : Int) (source : String)
    (sid : Option Nat) (rd : Option String) (unit : String) (ecu : Option Int)
    (today : String) (h : ∀ r ∈ st.odometer, 0 < r.odometer_km) :
    ∀ r ∈ (track_odometer st vin km source sid rd unit ecu today).odometer,
      0 < r.odometer_km := by
  unfold track_odometer
  split
  · exact h
  · rename_i hkm
    dsimp only
    split
    · intro r hr
      rcases List.mem_append.mp hr with hr | hr
      · exact h r hr
      · simp at hr; subst hr; simpa using by omega
    · intro r hr
      rcases List.mem_append.mp hr with hr | hr
      · exact h r hr
      · simp at hr; subst hr; simpa using by omega

theorem submitRow_hashOk (st : State) (vin report_type : String)
    (submitter data : Json) (ip now : String) :
    RowHashOk (submitRow st vin report_type submitter data ip now) := by
  constructor
  · rfl
  · rfl

theorem stateInv_commit (st : State) (vin report_type : String)
    (submitter data : Json) (ip now : String) (h : StateInv st) :
    StateInv (commitState st vin report_type submitter data ip now) := by
  obtain ⟨hch, hid, hpos⟩ := h
  refine ⟨?_, ?_, hpos⟩
  · refine chainOk_append _ _ _ _ hch ?_ ?_ ?_ (submitRow_hashOk ..)
    · exact (get_last_hash_eq_chainTip _ hch).symm.trans rfl |>.symm ▸ rfl
    · intro s hs; exact hid s hs
    · exact Nat.zero_le _
  · intro s hs
    rcases List.mem_append.mp hs with hs | hs
    · have := hid s hs
      show s.id < st.nextSubmissionId + 1
      omega
    · simp at hs; subst hs
      show st.nextSubmissionId < st.nextSubmissionId + 1
      omega

theorem stateInv_track (st : State) (vin : String) (km : Int) (source : String)
    (sid : Option Nat) (rd : Option String) (unit : String) (ecu : Option Int)
    (today : String) (h : StateInv st) :
    StateInv (track_odometer st vin km source sid rd unit ecu today) := by
  obtain ⟨hch, hid, hpos⟩ := h
  refine ⟨?_, ?_, track_odometer_pos _ _ _ _ _ _ _ _ _ hpos⟩
  · rw [track_submissions_eq]; exact hch
  · intro s hs
    rw [track_submissions_eq] at hs
    rw [track_nextSubmissionId_eq]
    exact hid s hs

theorem postCommit_inv (fp : FailPoint) (st2 : State) (submission_id : Nat)
    (vin report_type : String) (data : Json) (ip today ih2 : String)
    (h : StateInv st2) :
    StateInv (postCommit fp st2 submission_id vin report_type data ip today ih2).1 := by
  unfold postCommit
  dsimp only
  split
  · exact h
  · rename_i st3 hst3
    have h3 : StateInv st3 := by
      split at hst3
      · split at hst3
        · cases hst3
        · rename_i km _
          cases hst3
          split
          · exact h
          · exact stateInv_track _ _ _ _ _ _ _ _ _ h
      · cases hst3
        exact h
    dsimp only
    split
    · exact h3
    · exact ⟨h3.1, h3.2.1, h3.2.2⟩

theorem submitCoreF_inv (fp : FailPoint) (st : State) (vin report_type : String)
    (submitter data : Json) (ip now today : String) (h : StateInv st) :
    StateInv (submitCoreF fp st vin report_type submitter data ip now today).1 := by
  unfold submitCoreF
  dsimp only
  split
  · refine ⟨h.1, fun s hs => ?_, h.2.2⟩
    have := h.2.1 s hs
    show s.id < st.nextSubmissionId + 1
    omega
  · exact postCommit_inv _ _ _ _ _ _ _ _ _
      (stateInv_commit _ _ _ _ _ _ _ h)

theorem get_or_create_vehicle_inv (dec : String → Bool) (st : State) (vin : String)
    (h : StateInv st) : StateInv (get_or_create_vehicle dec st vin).1 := by
  unfold get_or_create_vehicle
  split
  · exact h
  · split
    · exact ⟨h.1, h.2.1, h.2.2⟩
    · exact h

theorem collecte_submitF_inv (fp : FailPoint) (dec : String → Bool) (st : State)
    (vinRaw report_type : String) (submitter data : Json) (ip now today : String)
    (h : StateInv st) :
    StateInv (collecte_submitF fp dec st vinRaw report_type submitter data
      ip now today).1 := by
  unfold collecte_submitF
  dsimp only
  split
  · exact h
  · split
    · exact h
    · split
      · rename_i st1 heq
        have : StateInv (get_or_create_vehicle dec st (pyUpper (pyStrip vinRaw))).1 :=
          get_or_create_vehicle_inv dec st _ h
        rw [heq] at this
        exact this
      · rename_i st1 heq
        have h1 : StateInv (get_or_create_vehicle dec st (pyUpper (pyStrip vinRaw))).1 :=
          get_or_create_vehicle_inv dec st _ h
        rw [heq] at h1
        exact submitCoreF_inv _ _ _ _ _ _ _ _ _ h1

theorem process_single_inv (fp : FailPoint) (dec : String → Bool) (st : State)
    (vinRaw report_type : String) (submitter data : Json) (ip now today : String)
    (h : StateInv st) :
    StateInv (_process_single_submissionF fp dec st vinRaw report_type submitter
      data ip now today).1 := by
  unfold _process_single_submissionF
  dsimp only
  split
  · exact h
  · split
    · exact h
    · split
      · rename_i st1 heq
        have h1 : StateInv (get_or_create_vehicle dec st (pyUpper (pyStrip vinRaw))).1 :=
          get_or_create_vehicle_inv dec st _ h
        rw [heq] at h1
        exact h1
      · rename_i st1 heq
        have h1 : StateInv (get_or_create_vehicle dec st (pyUpper (pyStrip vinRaw))).1 :=
          get_or_create_vehicle_inv dec st _ h
        rw [heq] at h1
        have h2 := submitCoreF_inv fp st1 (pyUpper (pyStrip vinRaw)) report_type
          submitter data ip now today h1
        split
        · rename_i st2 sid hh heq2
          rw [heq2] at h2
          exact h2
        · rename_i st2 s m heq2
          rw [heq2] at h2
          exact h2

theorem stateInv_init : StateInv initState :=
  ⟨trivial, fun s hs => (List.not_mem_nil s hs).elim,
   fun r hr => (List.not_mem_nil r hr).elim⟩

theorem reachable_inv (st : State) (h : Reachable st) : StateInv st := by
  induction h with
  | init => exact stateInv_init
  | stepSubmit fp dec st vinRaw report_type submitter data ip now today _ ih =>
      exact collecte_submitF_inv fp dec st vinRaw report_type submitter data
        ip now today ih
  | stepBatchRow fp dec st vinRaw report_type submitter data ip now today _ ih =>
      exact process_single_inv fp dec st vinRaw report_type submitter data
        ip now today ih

/- ## Claim C8: the report-type auto-detection heuristic -/

/-- C8: for every CSV row without an explicit `report_type` column value,
`_auto_detect_report_type` follows exactly the claim's ordered heuristic
(accident columns, then service columns, then ownership columns, then a
pass/fail result, then a recall number, then date+odometer, then the
`service` default). -/
theorem auto_detect_matches_heuristic (row : Row)
    (h : rget row "report_type" = "") :
    _auto_detect_report_type row = autoDetectSpec row := by
  unfold _auto_detect_report_type autoDetectSpec
  rw [if_neg (by rw [h]; exact fun hc => hc rfl)]
  refine if_congr Iff.rfl rfl (if_congr Iff.rfl rfl (if_congr Iff.rfl rfl
    (if_congr ?_ rfl rfl)))
  constructor
  · rintro ⟨-, h2⟩; exact h2
  · intro h2
    refine ⟨?_, h2⟩
    rcases h2 with h2 | h2 <;> rw [h2] <;> decide

/-- C8 witness: a concrete row with only `date` and `odometer_km`. -/
theorem auto_detect_matches_heuristic_witness :
    _auto_detect_report_type
        ([("date", "2025-01-01"), ("odometer_km", "45000")] : Row) =
      autoDetectSpec ([("date", "2025-01-01"), ("odometer_km", "45000")] : Row) :=
  auto_detect_matches_heuristic _ rfl

/- ## Claim C9: photo-upload rejection -/

/-- C9 counterexample: a file with an unsupported extension (`photo.gif`)
and a file over 5 MiB (`big.png`, 5 MiB + 1) do not make the request fail
with a 400 — the endpoint silently skips them and answers 200 with an
empty accepted-file list. -/
theorem upload_counterexample :
    collecte_upload [⟨"photo.gif", 1000⟩] = .ok []
    ∧ (collecte_upload [⟨"photo.gif", 1000⟩]).is400 = false
    ∧ collecte_upload [⟨"big.png", 5242881⟩] = .ok []
    ∧ (collecte_upload [⟨"big.png", 5242881⟩]).is400 = false := by
  decide

theorem uploadLoop_eq_filterMap :
    ∀ files : List UploadFile, uploadLoop files = files.filterMap acceptSpec := by
  intro files
  induction files with
  | nil => rfl
  | cons f fs ih =>
      unfold uploadLoop
      rw [List.filterMap_cons]
      by_cases h1 : f.filename = ""
      · rw [if_pos h1]
        have ha : acceptSpec f = none := by
          unfold acceptSpec
          rw [if_neg (by rintro ⟨hc, -⟩; exact hc h1)]
        rw [ha, ih]
      · rw [if_neg h1]
        by_cases h2 : ALLOWED_EXTENSIONS.contains (extOf f.filename)
        · by_cases h3 : MAX_FILE_SIZE < f.size
          · rw [if_neg (by simpa using h2), if_pos h3]
            have ha : acceptSpec f = none := by
              unfold acceptSpec
              rw [if_neg (by rintro ⟨-, -, hc⟩; omega)]
            rw [ha, ih]
          · rw [if_neg (by simpa using h2), if_neg h3]
            have ha : acceptSpec f = some ⟨f.filename, f.size, extOf f.filename⟩ := by
              unfold acceptSpec
              rw [if_pos ⟨h1, by simpa using h2, by omega⟩]
            rw [ha, ih]
        · rw [if_pos (by simpa using h2)]
          have ha : acceptSpec f = none := by
            unfold acceptSpec
            rw [if_neg (by rintro ⟨-, hc, -⟩; exact h2 (by simpa using hc))]
          rw [ha, ih]

/-- C9 (amended): a file with an unsupported extension or a size over
5 MiB is *skipped*, not rejected: as long as the request itself is
well-formed (at least one file, at most five), the endpoint answers 200
and the accepted files are exactly those with a non-empty name, an allowed
extension and a size at most 5 MiB. -/
theorem upload_skips_bad_files (files : List UploadFile) (hne : ¬ files.isEmpty)
    (hlen : files.length ≤ 5) :
    collecte_upload files = .ok (files.filterMap acceptSpec) := by
  unfold collecte_upload
  rw [if_neg hne, if_neg (by omega), uploadLoop_eq_filterMap]

/-- C9 witness: two files, one accepted and one skipped. -/
theorem upload_skips_bad_files_witness :
    collecte_upload [⟨"a.png", 10⟩, ⟨"b.gif", 10⟩] =
      .ok (List.filterMap acceptSpec [⟨"a.png", 10⟩, ⟨"b.gif", 10⟩]) :=
  upload_skips_bad_files _ (by decide) (by decide)

/- ## Claim C6: atomicity of submit -/

theorem get_or_create_fields (dec : String → Bool) (st : State) (vin : String) :
    (get_or_create_vehicle dec st vin).1.submissions = st.submissions
    ∧ (get_or_create_vehicle dec st vin).1.details = st.details
    ∧ (get_or_create_vehicle dec st vin).1.odometer = st.odometer
    ∧ (get_or_create_vehicle dec st vin).1.audit = st.audit := by
  unfold get_or_create_vehicle
  split
  · exact ⟨rfl, rfl, rfl, rfl⟩
  · split
    · exact ⟨rfl, rfl, rfl, rfl⟩
    · exact ⟨rfl, rfl, rfl, rfl⟩

theorem submitCoreF_precommit (fp : FailPoint) (st : State)
    (vin report_type : String) (submitter data : Json) (ip now today : String)
    (hfp : fp = .atHashUpdate ∨ fp = .atDetailInsert) :
    submitCoreF fp st vin report_type submitter data ip now today =
      ({ st with nextSubmissionId := st.nextSubmissionId + 1 },
       .err 500 "Erreur serveur") := by
  unfold submitCoreF
  rw [if_pos hfp]

/-- C6 (amended): the transaction is atomic up to its commit — if the
`integrity_hash` update or the detail-row insert fails, nothing of the
submission remains (no submission row, no detail row, no odometer reading,
no audit entry) and an error is returned.  The odometer side-effect and the
audit append, by contrast, run after the commit (see the counterexample). -/
theorem submit_atomic_before_commit (fp : FailPoint)
    (hfp : fp = .atHashUpdate ∨ fp = .atDetailInsert) (dec : String → Bool)
    (st : State) (vinRaw report_type : String) (submitter data : Json)
    (ip now today : String) :
    (collecte_submitF fp dec st vinRaw report_type submitter data
        ip now today).1.submissions = st.submissions
    ∧ (collecte_submitF fp dec st vinRaw report_type submitter data
        ip now today).1.details = st.details
    ∧ (collecte_submitF fp dec st vinRaw report_type submitter data
        ip now today).1.odometer = st.odometer
    ∧ (collecte_submitF fp dec st vinRaw report_type submitter data
        ip now today).1.audit = st.audit
    ∧ ((collecte_submitF fp dec st vinRaw report_type submitter data
        ip now today).2).isOk = false := by
  unfold collecte_submitF
  dsimp only
  split
  · exact ⟨rfl, rfl, rfl, rfl, rfl⟩
  · split
    · exact ⟨rfl, rfl, rfl, rfl, rfl⟩
    · split
      · rename_i st1 heq
        have hf := get_or_create_fields dec st (pyUpper (pyStrip vinRaw))
        rw [heq] at hf
        exact ⟨hf.1, hf.2.1, hf.2.2.1, hf.2.2.2, rfl⟩
      · rename_i st1 heq
        have hf := get_or_create_fields dec st (pyUpper (pyStrip vinRaw))
        rw [heq] at hf
        rw [submitCoreF_precommit _ _ _ _ _ _ _ _ _ hfp]
        exact ⟨hf.1, hf.2.1, hf.2.2.1, hf.2.2.2, rfl⟩

/-- C6 witness: a hash-update failure on a concrete store rolls everything
back and returns an error. -/
theorem submit_atomic_before_commit_witness :
    (collecte_submitF .atHashUpdate decAll initState vinC "service" submitterC
        dataC "1.2.3.4" nowC "2025-06-15").1.submissions = initState.submissions
    ∧ (collecte_submitF .atHashUpdate decAll initState vinC "service" submitterC
        dataC "1.2.3.4" nowC "2025-06-15").1.details = initState.details
    ∧ (collecte_submitF .atHashUpdate decAll initState vinC "service" submitterC
        dataC "1.2.3.4" nowC "2025-06-15").1.odometer = initState.odometer
    ∧ (collecte_submitF .atHashUpdate decAll initState vinC "service" submitterC
        dataC "1.2.3.4" nowC "2025-06-15").1.audit = initState.audit
    ∧ ((collecte_submitF .atHashUpdate decAll initState vinC "service" submitterC
        dataC "1.2.3.4" nowC "2025-06-15").2).isOk = false :=
  submit_atomic_before_commit .atHashUpdate (Or.inl rfl) decAll initState vinC
    "service" submitterC dataC "1.2.3.4" nowC "2025-06-15"

/-- C6 counterexample: a failure in the *odometer side-effect* — one of
the steps the claim lists — does not roll the submission back: the insert
was already committed, the tracker swallows the exception, and the
endpoint still returns success with the submission row in place. -/
theorem submit_atomic_counterexample :
    ((collecte_submitF .atOdometerInsert decAll initState vinC "service"
        submitterC dataC "1.2.3.4" nowC "2025-06-15").2).isOk = true
    ∧ (collecte_submitF .atOdometerInsert decAll initState vinC "service"
        submitterC dataC "1.2.3.4" nowC "2025-06-15").1.submissions.length = 1
    ∧ (collecte_submitF .atOdometerInsert decAll initState vinC "service"
        submitterC dataC "1.2.3.4" nowC "2025-06-15").1.odometer.length = 0 := by
  refine ⟨rfl, rfl, rfl⟩

/- ## Claim C5: the odometer tracker -/

theorem foldl_pickLater_mem : ∀ (l : List OdoReading) (acc : Option OdoReading)
    (p : OdoReading), List.foldl pickLater acc l = some p → acc = some p ∨ p ∈ l := by
  intro l
  induction l with
  | nil => intro acc p h; exact Or.inl h
  | cons a t ih =>
      intro acc p h
      rw [List.foldl_cons] at h
      rcases ih _ _ h with h1 | h1
      · unfold pickLater at h1
        cases acc with
        | none =>
            dsimp only at h1
            cases h1
            exact Or.inr (List.mem_cons_self _ _)
        | some b =>
            dsimp only at h1
            by_cases hcond : b.reading_date < a.reading_date ∨
                (b.reading_date = a.reading_date ∧ b.id < a.id)
            · rw [if_pos hcond] at h1
              cases h1
              exact Or.inr (List.mem_cons_self _ _)
            · rw [if_neg hcond] at h1
              exact Or.inl (by cases h1; rfl)
      · exact Or.inr (List.mem_cons_of_mem _ h1)

theorem latestReading_mem (readings : List OdoReading) (vin : String)
    (p : OdoReading) (h : latestReading readings vin = some p) :
    p ∈ readings ∧ p.vin = vin := by
  unfold latestReading at h
  rcases foldl_pickLater_mem _ _ _ h with h1 | h1
  · cases h1
  · have hm := List.mem_filter.mp h1
    exact ⟨hm.1, by simpa using hm.2⟩

/-- C5 (amended): for every tracker call with `km > 0` on a store whose
readings are all positive (every reading the pipeline writes is), exactly
one reading is inserted, carrying that `km`; its `fraud_flag` is true iff
the rollback rule fires (a latest prior reading for the VIN under
`reading_date DESC, id DESC` exists with `km < prior.km`) or the ECU rule
fires (`ecu_km` present *and nonzero* with `|ecu_km − km| > 5000`); and its
reason is the rollback message, the ECU message appended to it, or the ECU
message alone (with its leading space), as the rules fire. -/
theorem track_odometer_spec (st : State)
    (hpos : ∀ r ∈ st.odometer, 0 < r.odometer_km)
    (vin source : String) (km : Int) (hkm : 0 < km) (sid : Option Nat)
    (rd : Option String) (unit : String) (ecu : Option Int) (today : String) :
    ∃ r : OdoReading,
      (track_odometer st vin km source sid rd unit ecu today).odometer =
        st.odometer ++ [r]
      ∧ r.odometer_km = km
      ∧ (r.fraud_flag = true ↔
          ((∃ p, latestReading st.odometer vin = some p ∧ km < p.odometer_km) ∨
           (∃ e, ecu = some e ∧ e ≠ 0 ∧ 5000 < (e - km).natAbs)))
      ∧ r.fraud_reason = expectedReason st.odometer vin km ecu := by
  have hne : ¬ km ≤ 0 := by omega
  unfold track_odometer expectedReason
  rw [if_neg hne]
  cases hp : latestReading st.odometer vin with
  | none =>
      cases ecu with
      | none =>
          refine ⟨⟨st.nextOdometerId, vin, sid, rd.getD today, km, unit, source,
            none, false, none⟩, ?_, rfl, ?_, ?_⟩
          · simp [hp]
          · simp [hp]
          · simp [hp]
      | some e =>
          by_cases hc : e ≠ 0 ∧ 5000 < (e - km).natAbs
          · refine ⟨⟨st.nextOdometerId, vin, sid, rd.getD today, km, unit, source,
              some e, true, some ("" ++ ecuMsg e km)⟩, ?_, rfl, ?_, ?_⟩
            · simp [hp, hc, ecuMsg]
            · simp [hp, hc]
            · simp [hp, hc]
          · refine ⟨⟨st.nextOdometerId, vin, sid, rd.getD today, km, unit, source,
              some e, false, none⟩, ?_, rfl, ?_, ?_⟩
            · simp [hp, hc]
            · simp [hp, hc]
            · simp [hp, hc]
  | some p =>
      have hppos : 0 < p.odometer_km :=
        hpos p (latestReading_mem st.odometer vin p hp).1
      have hpne : p.odometer_km ≠ 0 := by omega
      by_cases hroll : km < p.odometer_km
      · cases ecu with
        | none =>
            refine ⟨⟨st.nextOdometerId, vin, sid, rd.getD today, km, unit, source,
              none, true, some (rollbackMsg km p.odometer_km)⟩, ?_, rfl, ?_, ?_⟩
            · simp [hp, hpne, hroll, rollbackMsg]
            · simp [hp, hpne, hroll]
            · simp [hp, hpne, hroll]
        | some e =>
            by_cases hc : e ≠ 0 ∧ 5000 < (e - km).natAbs
            · refine ⟨⟨st.nextOdometerId, vin, sid, rd.getD today, km, unit, source,
                some e, true, some (rollbackMsg km p.odometer_km ++ ecuMsg e km)⟩,
                ?_, rfl, ?_, ?_⟩
              · simp [hp, hpne, hroll, hc, rollbackMsg, ecuMsg, String.append_assoc]
                all_goals rfl
              · simp [hp, hpne, hroll, hc]
              · simp [hp, hpne, hroll, hc]
            · refine ⟨⟨st.nextOdometerId, vin, sid, rd.getD today, km, unit, source,
                some e, true, some (rollbackMsg km p.odometer_km)⟩, ?_, rfl, ?_, ?_⟩
              · simp [hp, hpne, hroll, hc, rollbackMsg]
              · simp [hp, hpne, hroll, hc]
              · simp [hp, hpne, hroll, hc]
      · cases ecu with
        | none =>
            refine ⟨⟨st.nextOdometerId, vin, sid, rd.getD today, km, unit, source,
              none, false, none⟩, ?_, rfl, ?_, ?_⟩
            · simp [hp, hpne, hroll]
            · simp [hp, hroll]
            · simp [hp, hpne, hroll]
        | some e =>
            by_cases hc : e ≠ 0 ∧ 5000 < (e - km).natAbs
            · refine ⟨⟨st.nextOdometerId, vin, sid, rd.getD today, km, unit, source,
                some e, true, some ("" ++ ecuMsg e km)⟩, ?_, rfl, ?_, ?_⟩
              · simp [hp, hpne, hroll, hc, ecuMsg]
              · simp [hp, hroll, hc]
              · simp [hp, hpne, hroll, hc]
            · refine ⟨⟨st.nextOdometerId, vin, sid, rd.getD today, km, unit, source,
                some e, false, none⟩, ?_, rfl, ?_, ?_⟩
              · simp [hp, hpne, hroll, hc]
              · simp [hp, hroll, hc]
              · simp [hp, hpne, hroll, hc]

/-- C5 witness: a first reading on an empty store. -/
theorem track_odometer_spec_witness :
    ∃ r : OdoReading,
      (track_odometer initState "2HGFC2F59MH528491" 45000 "submission_service"
        (some 1) none "km" none "2025-06-15").odometer =
        initState.odometer ++ [r]
      ∧ r.odometer_km = 45000
      ∧ (r.fraud_flag = true ↔
          ((∃ p, latestReading initState.odometer "2HGFC2F59MH528491" = some p ∧
            45000 < p.odometer_km) ∨
           (∃ e, (none : Option Int) = some e ∧ e ≠ 0 ∧
            5000 < (e - 45000).natAbs)))
      ∧ r.fraud_reason =
          expectedReason initState.odometer "2HGFC2F59MH528491" 45000 none :=
  track_odometer_spec initState (fun r hr => absurd hr (List.not_mem_nil r))
    "2HGFC2F59MH528491" "submission_service" 45000 (by decide) (some 1) none
    "km" none "2025-06-15"

/-- C5 counterexample: a call with `km = 6000` and `ecu_km = 0` on an empty
store.  The claim's ECU-mismatch premise holds — `ecu_km` is present and
`|0 − 6000| > 5000` — yet the stored reading has `fraud_flag = false`,
because the code treats the falsy `0` as absent. -/
theorem track_odometer_counterexample :
    ((track_odometer initState "2HGFC2F59MH528491" 6000 "submission_obd_diagnostic"
        (some 1) none "km" (some 0) "2025-01-01").odometer.map
      (fun r => (r.odometer_km, r.ecu_reading, r.fraud_flag, r.fraud_reason))) =
      [(6000, some 0, false, none)]
    ∧ 5000 < ((0 : Int) - 6000).natAbs := by
  decide

/- ## Claim C10: zero numeric values are treated as absent -/

/-- C10: a numeric value of exactly 0 behaves as absent throughout the
submit pipeline — a `cost`, `odometer_km`, `estimated_cost` or
`sale_price` of 0 is stored as a NULL detail column; a zero (or absent)
`odometer_km`/`odometer_at_import` yields no OdometerReading at all; and
an `ecu_odometer_km` of 0 never changes the fraud verdict. -/
theorem zero_treated_as_absent :
    (∀ (sid : Nat) (data : Json), jget data "cost" = some (.int 0) →
      ∃ d, _insert_detail sid "service" data = some d ∧
        colVal d "cost" = some .null)
    ∧ (∀ (sid : Nat) (data : Json), jget data "odometer_km" = some (.int 0) →
      ∃ d, _insert_detail sid "service" data = some d ∧
        colVal d "odometer_km" = some .null)
    ∧ (∀ (sid : Nat) (data : Json), jget data "estimated_cost" = some (.int 0) →
      ∃ d, _insert_detail sid "accident" data = some d ∧
        colVal d "estimated_cost" = some .null)
    ∧ (∀ (sid : Nat) (data : Json), jget data "sale_price" = some (.int 0) →
      ∃ d, _insert_detail sid "ownership" data = some d ∧
        colVal d "sale_price" = some .null)
    ∧ (∀ (st : State) (vin report_type : String) (submitter data : Json)
        (ip now today : String),
        (jget data "odometer_km" = none ∨ jget data "odometer_km" = some (.int 0)) →
        (jget data "odometer_at_import" = none ∨
          jget data "odometer_at_import" = some (.int 0)) →
        (submitCoreF .nofail st vin report_type submitter data ip now
          today).1.odometer = st.odometer)
    ∧ (∀ (st : State) (vin : String) (km : Int) (source : String)
        (sid : Option Nat) (rd : Option String) (unit today : String),
        (track_odometer st vin km source sid rd unit (some 0) today).odometer.map
            (fun r => (r.fraud_flag, r.fraud_reason)) =
          (track_odometer st vin km source sid rd unit none today).odometer.map
            (fun r => (r.fraud_flag, r.fraud_reason))) := by
  refine ⟨?_, ?_, ?_, ?_, ?_, ?_⟩
  · intro sid data h
    refine ⟨_, rfl, ?_⟩
    simp [colVal, fieldOrNull, jgetD, h, pyOrNone, truthy]
  · intro sid data h
    refine ⟨_, rfl, ?_⟩
    simp [colVal, fieldOrNull, jgetD, h, pyOrNone, truthy]
  · intro sid data h
    refine ⟨_, rfl, ?_⟩
    simp [colVal, fieldOrNull, jgetD, h, pyOrNone, truthy]
  · intro sid data h
    refine ⟨_, rfl, ?_⟩
    simp [colVal, fieldOrNull, jgetD, h, pyOrNone, truthy]
  · intro st vin report_type submitter data ip now today h1 h2
    unfold submitCoreF postCommit
    have hov : pyOr (jgetD data "odometer_km" .null)
        (jgetD data "odometer_at_import" .null) = .null
        ∨ pyOr (jgetD data "odometer_km" .null)
          (jgetD data "odometer_at_import" .null) = .int 0 := by
      rcases h1 with h1 | h1 <;> rcases h2 with h2 | h2 <;>
        simp [pyOr, jgetD, h1, h2, truthy]
    rcases hov with hov | hov <;>
      simp [hov, truthy, commitState]
  · intro st vin km source sid rd unit today
    unfold track_odometer
    by_cases hk : km ≤ 0
    · rw [if_pos hk, if_pos hk]
    · rw [if_neg hk, if_neg hk]
      cases hp : latestReading st.odometer vin with
      | none => simp [hp]
      | some p =>
          by_cases hc : p.odometer_km ≠ 0 ∧ km < p.odometer_km
          · simp [hp, hc]
          · simp [hp, hc]

/-- C10 witness: concrete zero-valued fields. -/
theorem zero_treated_as_absent_witness :
    (∃ d, _insert_detail 7 "service" (.obj [("cost", .int 0)]) = some d ∧
      colVal d "cost" = some .null)
    ∧ (submitCoreF .nofail initState vinC "service" submitterC
        (.obj [("odometer_km", .int 0)]) "1.2.3.4" nowC
        "2025-06-15").1.odometer = initState.odometer
    ∧ (track_odometer initState vinC 6000 "s" none none "km" (some 0)
          "2025-01-01").odometer.map (fun r => (r.fraud_flag, r.fraud_reason)) =
      (track_odometer initState vinC 6000 "s" none none "km" none
          "2025-01-01").odometer.map (fun r => (r.fraud_flag, r.fraud_reason)) :=
  ⟨zero_treated_as_absent.1 7 (.obj [("cost", .int 0)]) rfl,
   zero_treated_as_absent.2.2.2.2.1 initState vinC "service" submitterC
     (.obj [("odometer_km", .int 0)]) "1.2.3.4" nowC "2025-06-15"
     (Or.inr rfl) (Or.inl rfl),
   zero_treated_as_absent.2.2.2.2.2 initState vinC 6000 "s" none none "km"
     "2025-01-01"⟩

/- ## Claim C1: the canonical hashed payload -/

theorem headD_mem : ∀ (l : List Submission) (d : Submission),
    l ≠ [] → l.headD d ∈ l := by
  intro l d h
  cases l with
  | nil => exact absurd rfl h
  | cons a t => exact List.mem_cons_self _ _

theorem sha256Hex_length (msg : List Nat) : (sha256Hex msg).length = 64 := rfl

theorem hexDigit_isHexLower : ∀ n : Fin 16, isHexLower (hexDigit n.val) = true := by
  decide

theorem byteHex_chars (b : Nat) : ∀ c ∈ byteHex b, isHexLower c = true := by
  intro c hc
  have h2 : (b % 16) < 16 := Nat.mod_lt _ (by omega)
  have h1 : (b / 16 % 16) < 16 := Nat.mod_lt _ (by omega)
  rcases List.mem_pair.mp hc with rfl | rfl
  · exact hexDigit_isHexLower ⟨b / 16 % 16, h1⟩
  · exact hexDigit_isHexLower ⟨b % 16, h2⟩

theorem sha256Hex_chars (msg : List Nat) :
    ∀ c ∈ (sha256Hex msg).data, isHexLower c = true := by
  intro c hc
  have hmem : c ∈ (sha256 msg).flatMap byteHex := hc
  rcases List.mem_flatMap.mp hmem with ⟨b, -, hcb⟩
  exact byteHex_chars b c hcb

theorem compute_integrity_hash_length (a : Nat) (b c : String) (d : Json)
    (e : Option String) (f : String) :
    (compute_integrity_hash a b c d e f).length = 64 :=
  sha256Hex_length _

/-- The code's `json.dumps(..., sort_keys=True, ensure_ascii=False)` of the
six-key payload equals the claim's spelled-out serialization with Python's
default separators, provided the previous hash is not the empty string
(`previous_hash or 'GENESIS'` versus the claim's plain null test). -/
theorem compute_eq_amended (submission_id : Nat) (vin report_type : String)
    (data_snapshot : Json) (previous_hash : Option String) (timestamp : String)
    (hprev : previous_hash ≠ some "") :
    compute_integrity_hash submission_id vin report_type data_snapshot
      previous_hash timestamp =
    amendedCanonicalHash submission_id vin report_type data_snapshot
      previous_hash timestamp := by
  cases previous_hash with
  | none => rfl
  | some p =>
      have hp : ¬ p = "" := fun h => hprev (by rw [h])
      unfold compute_integrity_hash amendedCanonicalHash
      dsimp only
      rw [if_neg hp]
      rfl

theorem chainOk_rowHashOk : ∀ (l : List Submission) (prev : Option String)
    (lo : Nat), chainOk prev lo l → ∀ s ∈ l, RowHashOk s := by
  intro l
  induction l with
  | nil => intro _ _ _ s hs; cases hs
  | cons a t ih =>
      intro prev lo h s hs
      obtain ⟨-, -, hrow, ht⟩ := h
      rcases List.mem_cons.mp hs with rfl | hs
      · exact hrow
      · exact ih _ _ ht s hs

theorem chainOk_prev_ne_empty : ∀ (l : List Submission) (prev : Option String)
    (lo : Nat), prev ≠ some "" → chainOk prev lo l →
    ∀ s ∈ l, s.previous_hash ≠ some "" := by
  intro l
  induction l with
  | nil => intro _ _ _ _ s hs; cases hs
  | cons a t ih =>
      intro prev lo hpr h s hs
      obtain ⟨-, hprev, hrow, ht⟩ := h
      rcases List.mem_cons.mp hs with rfl | hs
      · rw [hprev]; exact hpr
      · refine ih _ _ ?_ ht s hs
        rw [hrow.1]
        intro hcontra
        have : (compute_integrity_hash a.id a.vin a.report_type a.data_snapshot
            a.previous_hash a.submitted_at).length = ("" : String).length := by
          rw [Option.some_inj.mp hcontra]
        rw [compute_integrity_hash_length] at this
        simp at this

/-- C1 (amended): for every successful submission, the stored
`integrity_hash` is the SHA-256 — lower-case hex, 64 characters — of the
UTF-8 encoding of the JSON object `{"data", "id", "prev", "ts", "type",
"vin"}` with keys in lexicographic order, non-ASCII preserved unescaped,
and Python's default `json.dumps` separators: a space after every comma
and every colon (not the compact, whitespace-free form the claim states —
see the counterexample). -/
theorem integrity_hash_canonical (st : State) (hre : Reachable st) :
    ∀ s ∈ st.submissions,
      s.integrity_hash = some (amendedCanonicalHash s.id s.vin s.report_type
        s.data_snapshot s.previous_hash s.submitted_at)
      ∧ (amendedCanonicalHash s.id s.vin s.report_type s.data_snapshot
          s.previous_hash s.submitted_at).length = 64
      ∧ ∀ c ∈ (amendedCanonicalHash s.id s.vin s.report_type s.data_snapshot
          s.previous_hash s.submitted_at).data, isHexLower c = true := by
  intro s hs
  obtain ⟨hch, -, -⟩ := reachable_inv st hre
  have hrow := chainOk_rowHashOk _ _ _ hch s hs
  have hne := chainOk_prev_ne_empty _ _ _ (by intro h; cases h) hch s hs
  refine ⟨?_, sha256Hex_length _, sha256Hex_chars _⟩
  rw [hrow.1, compute_eq_amended _ _ _ _ _ _ hne]

set_option maxRecDepth 400000 in
/-- C1 witness: the amended canonical form at the one submission actually
stored in the concrete one-submission store. -/
theorem integrity_hash_canonical_witness :
    (stC1.submissions.headD defaultSub).integrity_hash =
      some (amendedCanonicalHash (stC1.submissions.headD defaultSub).id
        (stC1.submissions.headD defaultSub).vin
        (stC1.submissions.headD defaultSub).report_type
        (stC1.submissions.headD defaultSub).data_snapshot
        (stC1.submissions.headD defaultSub).previous_hash
        (stC1.submissions.headD defaultSub).submitted_at)
    ∧ (amendedCanonicalHash (stC1.submissions.headD defaultSub).id
        (stC1.submissions.headD defaultSub).vin
        (stC1.submissions.headD defaultSub).report_type
        (stC1.submissions.headD defaultSub).data_snapshot
        (stC1.submissions.headD defaultSub).previous_hash
        (stC1.submissions.headD defaultSub).submitted_at).length = 64
    ∧ ((amendedCanonicalHash (stC1.submissions.headD defaultSub).id
        (stC1.submissions.headD defaultSub).vin
        (stC1.submissions.headD defaultSub).report_type
        (stC1.submissions.headD defaultSub).data_snapshot
        (stC1.submissions.headD defaultSub).previous_hash
        (stC1.submissions.headD defaultSub).submitted_at).data.all
          isHexLower = true) := by
  have h := integrity_hash_canonical stC1
    (Reachable.stepSubmit .nofail decAll initState vinC "service" submitterC
      dataC "1.2.3.4" nowC "2025-06-15" Reachable.init)
    (stC1.submissions.headD defaultSub)
    (headD_mem _ _ (List.ne_nil_of_length_pos (by decide)))
  exact ⟨h.1, h.2.1, List.all_eq_true.mpr (fun c hc => h.2.2 c hc)⟩

set_option maxRecDepth 100000 in
/-- C1 counterexample: on a concrete successful submission the stored hash
is *not* the SHA-256 of the whitespace-free serialization the claim
specifies — `json.dumps` default separators put a space after every comma
and colon in the hashed payload. -/
theorem integrity_hash_counterexample :
    ((collecte_submitF .nofail decAll initState vinC "service" submitterC dataC
      "1.2.3.4" nowC "2025-06-15").2).isOk = true
    ∧ (stC1.submissions.headD defaultSub).integrity_hash ≠
      some (claimCanonicalHash (stC1.submissions.headD defaultSub).id
        (stC1.submissions.headD defaultSub).vin
        (stC1.submissions.headD defaultSub).report_type
        (stC1.submissions.headD defaultSub).data_snapshot
        (stC1.submissions.headD defaultSub).previous_hash
        (stC1.submissions.headD defaultSub).submitted_at) := by
  refine ⟨rfl, ?_⟩
  decide

/- ## Claim C2: ids strictly increase and the chain links -/

/-- C2: in every store built by the submit endpoints, submission ids
strictly increase in insertion order, every successful submission carries
an integrity hash, each submission's `previous_hash` equals its
predecessor's `integrity_hash`, and a null `previous_hash` occurs only on
the very first submission. -/
theorem submission_chain (st : State) (hre : Reachable st) :
    List.Chain' (fun a b => a.id < b.id) st.submissions
    ∧ (∀ s ∈ st.submissions, s.integrity_hash.isSome)
    ∧ List.Chain' (fun a b => b.previous_hash = a.integrity_hash) st.submissions
    ∧ (∀ s ∈ st.submissions.tail, s.previous_hash.isSome) := by
  obtain ⟨hch, -, -⟩ := reachable_inv st hre
  exact ⟨chainOk_sorted _ _ _ hch, chainOk_hash_some _ _ _ hch,
    chainOk_links _ _ _ hch, chainOk_tail_prev_some _ _ _ hch⟩

/-- C2 witness: the concrete two-submission store. -/
theorem submission_chain_witness :
    List.Chain' (fun a b => a.id < b.id) stC2.submissions
    ∧ (∀ s ∈ stC2.submissions, s.integrity_hash.isSome)
    ∧ List.Chain' (fun a b => b.previous_hash = a.integrity_hash) stC2.submissions
    ∧ (∀ s ∈ stC2.submissions.tail, s.previous_hash.isSome) :=
  submission_chain stC2
    (Reachable.stepSubmit .nofail decAll stC1 vinC "service" submitterC dataC2
      "1.2.3.4" nowC2 "2025-08-01"
      (Reachable.stepSubmit .nofail decAll initState vinC "service" submitterC
        dataC "1.2.3.4" nowC "2025-06-15" Reachable.init))

/- ## Claim C3: verifyAll on an untampered chain -/

theorem sortById_eq_of_sorted : ∀ (l : List Submission),
    List.Chain' (fun x y => x.id < y.id) l → sortById l = l := by
  intro l
  induction l with
  | nil => intro _; rfl
  | cons a t ih =>
      intro h
      show insertById a (sortById t) = a :: t
      rw [ih (List.chain'_cons'.mp h).2]
      cases t with
      | nil => rfl
      | cons b u =>
          have hab : a.id < b.id := (List.chain'_cons.mp h).1
          unfold insertById
          rw [if_pos (by omega)]

theorem verifyLoop_ok : ∀ (l : List Submission) (prev : Option String) (lo : Nat),
    chainOk prev lo l → verifyLoop prev l = [] := by
  intro l
  induction l with
  | nil => intro _ _ _; rfl
  | cons a t ih =>
      intro prev lo h
      obtain ⟨-, hprev, hrow, ht⟩ := h
      unfold verifyLoop
      dsimp only
      rw [if_neg (not_not_intro hprev)]
      have hts : tsFromSnapshot a.data_snapshot a.submitted_at = a.submitted_at := by
        unfold tsFromSnapshot
        rw [hrow.2]
      have hstored : a.integrity_hash.getD "" =
          compute_integrity_hash a.id a.vin a.report_type a.data_snapshot
            a.previous_hash a.submitted_at := by
        rw [hrow.1]; rfl
      rw [hts]
      rw [if_neg (not_not_intro hstored.symm)]
      rw [List.nil_append, List.nil_append]
      have hsome : some (a.integrity_hash.getD "") = a.integrity_hash := by
        rw [hrow.1]; rfl
      rw [hsome]
      exact ih _ _ ht

theorem reachable_filter_hashed (st : State) (hch : chainOk none 0 st.submissions) :
    st.submissions.filter (fun s => s.integrity_hash.isSome) = st.submissions :=
  List.filter_eq_self.mpr (by
    intro s hs
    simpa using chainOk_hash_some _ _ _ hch s hs)

/-- C3: for every store built only by successful appends (and failed
attempts, which write nothing), `verifyAll` returns `valid = true` with no
broken link, at any chain length including zero. -/
theorem verify_untampered (st : State) (hre : Reachable st) :
    (collecte_verify st.submissions).valid = true
    ∧ (collecte_verify st.submissions).broken_links = [] := by
  obtain ⟨hch, -, -⟩ := reachable_inv st hre
  unfold collecte_verify
  rw [reachable_filter_hashed st hch,
    sortById_eq_of_sorted _ (chainOk_sorted _ _ _ hch)]
  cases hsubs : st.submissions with
  | nil => exact ⟨rfl, rfl⟩
  | cons a t =>
      rw [hsubs] at hch
      have hloop := verifyLoop_ok _ _ _ hch
      dsimp only
      rw [hloop]
      exact ⟨rfl, rfl⟩

/-- C3 witness: the concrete two-submission store verifies clean. -/
theorem verify_untampered_witness :
    (collecte_verify stC2.submissions).valid = true
    ∧ (collecte_verify stC2.submissions).broken_links = [] :=
  verify_untampered stC2
    (Reachable.stepSubmit .nofail decAll stC1 vinC "service" submitterC dataC2
      "1.2.3.4" nowC2 "2025-08-01"
      (Reachable.stepSubmit .nofail decAll initState vinC "service" submitterC
        dataC "1.2.3.4" nowC "2025-06-15" Reachable.init))

/- ## Claim C4: tamper detection -/

theorem tamper_id (s : Submission) (k : Nat) (v : Json) :
    (if s.id = k then { s with data_snapshot := v } else s).id = s.id := by
  split <;> rfl

theorem tamper_hash (s : Submission) (k : Nat) (v : Json) :
    (if s.id = k then { s with data_snapshot := v } else s).integrity_hash =
      s.integrity_hash := by
  split <;> rfl

theorem tamper_eq_self : ∀ (l : List Submission) (k : Nat) (v : Json),
    (∀ s ∈ l, s.id ≠ k) → tamperSnapshot l k v = l := by
  intro l k v
  induction l with
  | nil => intro _; rfl
  | cons a t ih =>
      intro h
      show List.map _ (a :: t) = a :: t
      rw [List.map_cons, if_neg (h a (List.mem_cons_self _ _))]
      have ht := ih (fun s hs => h s (List.mem_cons_of_mem _ hs))
      rw [show List.map _ t = tamperSnapshot t k v from rfl, ht]

theorem tamper_sorted (l : List Submission) (k : Nat) (v : Json)
    (h : List.Chain' (fun x y => x.id < y.id) l) :
    List.Chain' (fun x y => x.id < y.id) (tamperSnapshot l k v) := by
  unfold tamperSnapshot
  rw [List.chain'_map]
  refine List.Chain'.imp ?_ h
  intro a b hab
  rw [tamper_id, tamper_id]
  exact hab

theorem tamper_filter (l : List Submission) (k : Nat) (v : Json)
    (h : ∀ s ∈ l, s.integrity_hash.isSome) :
    (tamperSnapshot l k v).filter (fun s => s.integrity_hash.isSome) =
      tamperSnapshot l k v := by
  apply List.filter_eq_self.mpr
  intro x hx
  rcases List.mem_map.mp hx with ⟨y, hy, rfl⟩
  rw [tamper_hash]
  simpa using h y hy

theorem verifyLoop_tampered : ∀ (l : List Submission) (prev : Option String)
    (lo k : Nat) (v : Json) (s : Submission),
    chainOk prev lo l → s ∈ l → s.id = k →
    compute_integrity_hash k s.vin s.report_type v s.previous_hash
        (tsFromSnapshot v s.submitted_at) ≠ s.integrity_hash.getD "" →
    (verifyLoop prev (tamperSnapshot l k v)).map (fun b => (b.id, b.error)) =
      [(k, "hash_mismatch")] := by
  intro l
  induction l with
  | nil => intro _ _ _ _ _ _ hs; cases hs
  | cons a t ih =>
      intro prev lo k v s hch hs hid hdiff
      obtain ⟨hlo, hprev, hrow, ht⟩ := hch
      rcases List.mem_cons.mp hs with rfl | hs
      · have htt : tamperSnapshot t k v = t := by
          apply tamper_eq_self
          intro x hx
          have := chainOk_ids_le t _ _ ht x hx
          omega
        have htam : tamperSnapshot (s :: t) k v =
            { s with data_snapshot := v } :: t := by
          show List.map _ (s :: t) = _
          rw [List.map_cons, if_pos hid,
            show List.map _ t = tamperSnapshot t k v from rfl, htt]
        rw [htam]
        unfold verifyLoop
        dsimp only
        rw [if_neg (not_not_intro hprev)]
        have hmm : compute_integrity_hash s.id s.vin s.report_type v
            s.previous_hash (tsFromSnapshot v s.submitted_at) ≠
            s.integrity_hash.getD "" := by
          rw [hid]; exact hdiff
        rw [if_pos hmm]
        have hsome : some (s.integrity_hash.getD "") = s.integrity_hash := by
          rw [hrow.1]; rfl
        rw [hsome, verifyLoop_ok t _ _ ht, List.nil_append]
        simp [hid]
      · have hane : ¬ a.id = k := by
          have h1 := chainOk_ids_le t _ _ ht s hs
          omega
        have htam : tamperSnapshot (a :: t) k v = a :: tamperSnapshot t k v := by
          show List.map _ (a :: t) = _
          rw [List.map_cons, if_neg hane]
          rfl
        rw [htam]
        unfold verifyLoop
        dsimp only
        rw [if_neg (not_not_intro hprev)]
        have hts : tsFromSnapshot a.data_snapshot a.submitted_at =
            a.submitted_at := by
          unfold tsFromSnapshot; rw [hrow.2]
        have hstored : a.integrity_hash.getD "" =
            compute_integrity_hash a.id a.vin a.report_type a.data_snapshot
              a.previous_hash a.submitted_at := by
          rw [hrow.1]; rfl
        rw [hts, if_neg (not_not_intro hstored.symm), List.nil_append,
          List.nil_append]
        have hsome : some (a.integrity_hash.getD "") = a.integrity_hash := by
          rw [hrow.1]; rfl
        rw [hsome]
        exact ih _ _ _ _ _ ht hs hid hdiff

theorem find_tampered : ∀ (l : List Submission) (prev : Option String)
    (lo k : Nat) (v : Json) (s : Submission),
    chainOk prev lo l → s ∈ l → s.id = k →
    (tamperSnapshot l k v).find? (fun t => t.id = k) =
      some { s with data_snapshot := v } := by
  intro l
  induction l with
  | nil => intro _ _ _ _ _ _ hs; cases hs
  | cons a t ih =>
      intro prev lo k v s hch hs hid
      obtain ⟨-, -, -, ht⟩ := hch
      rcases List.mem_cons.mp hs with rfl | hs
      · have htam : tamperSnapshot (s :: t) k v =
            { s with data_snapshot := v } :: tamperSnapshot t k v := by
          show List.map _ (s :: t) = _
          rw [List.map_cons, if_pos hid]
          rfl
        rw [htam]
        simp [List.find?, hid]
      · have hane : ¬ a.id = k := by
          have h1 := chainOk_ids_le t _ _ ht s hs
          omega
        have htam : tamperSnapshot (a :: t) k v = a :: tamperSnapshot t k v := by
          show List.map _ (a :: t) = _
          rw [List.map_cons, if_neg hane]
          rfl
        rw [htam]
        have hfa : (decide (a.id = k)) = false := by simpa using hane
        simp only [List.find?, hfa]
        exact ih _ _ _ _ _ ht hs hid

theorem verify_single_checked (l : List Submission) (k : Nat) (u : Submission)
    (hf : l.find? (fun t => t.id = k) = some u) (h : String)
    (hh : u.integrity_hash = some h) :
    collecte_verify_single l k = .checked
      (compute_integrity_hash u.id u.vin u.report_type u.data_snapshot
        u.previous_hash (tsFromSnapshot u.data_snapshot u.submitted_at) = h)
      u.id h := by
  unfold collecte_verify_single
  rw [hf]
  dsimp only
  rw [hh]

/-- C4 (amended): mutating exactly one stored submission's `data_snapshot`
(hash untouched) makes `verifyOne` on that submission return
`valid = false`, and `verifyAll` report exactly one anomaly: a
`hash_mismatch` at that submission's id — and *no* `chain_break` for the
next submission, because the verifier chains each row against its
predecessor's *stored* hash, which was left untouched.  The hypothesis
`hdiff` states that the mutated snapshot actually changes the recomputed
digest, which any effective mutation does barring a SHA-256 collision. -/
theorem tamper_detection (st : State) (hre : Reachable st) (k : Nat) (v : Json)
    (s : Submission) (hs : s ∈ st.submissions) (hid : s.id = k)
    (hdiff : compute_integrity_hash k s.vin s.report_type v s.previous_hash
      (tsFromSnapshot v s.submitted_at) ≠ s.integrity_hash.getD "") :
    collecte_verify_single (tamperSnapshot st.submissions k v) k =
      .checked false k (s.integrity_hash.getD "")
    ∧ (collecte_verify (tamperSnapshot st.submissions k v)).valid = false
    ∧ brokenPairs (collecte_verify (tamperSnapshot st.submissions k v)) =
      [(k, "hash_mismatch")] := by
  subst hid
  obtain ⟨hch, -, -⟩ := reachable_inv st hre
  have hrow := chainOk_rowHashOk _ _ _ hch s hs
  have hfind := find_tampered st.submissions none 0 s.id v s hch hs rfl
  have hmap := verifyLoop_tampered st.submissions none 0 s.id v s hch hs rfl hdiff
  refine ⟨?_, ?_, ?_⟩
  · rw [verify_single_checked _ _ _ hfind
      (compute_integrity_hash s.id s.vin s.report_type s.data_snapshot
        s.previous_hash s.submitted_at) hrow.1]
    have hgd : s.integrity_hash.getD "" =
        compute_integrity_hash s.id s.vin s.report_type s.data_snapshot
          s.previous_hash s.submitted_at := by
      rw [hrow.1]; rfl
    rw [hgd] at hdiff
    have : (decide (compute_integrity_hash s.id s.vin s.report_type v
        s.previous_hash (tsFromSnapshot v s.submitted_at) =
        compute_integrity_hash s.id s.vin s.report_type s.data_snapshot
          s.previous_hash s.submitted_at)) = false :=
      decide_eq_false hdiff
    rw [hgd]
    exact congrArg (fun b => VerifySingleResult.checked b s.id _) this
  · unfold collecte_verify
    rw [tamper_filter _ _ _ (chainOk_hash_some _ _ _ hch),
      sortById_eq_of_sorted _ (tamper_sorted _ _ _ (chainOk_sorted _ _ _ hch))]
    cases htl : tamperSnapshot st.submissions s.id v with
    | nil =>
        have hmem : (if s.id = s.id then { s with data_snapshot := v } else s) ∈
            tamperSnapshot st.submissions s.id v := List.mem_map_of_mem _ hs
        rw [htl] at hmem
        cases hmem
    | cons a t =>
        rw [htl] at hmap
        dsimp only
        cases hl : verifyLoop none (a :: t) with
        | nil => rw [hl] at hmap; simp at hmap
        | cons x xs => rfl
  · unfold collecte_verify
    rw [tamper_filter _ _ _ (chainOk_hash_some _ _ _ hch),
      sortById_eq_of_sorted _ (tamper_sorted _ _ _ (chainOk_sorted _ _ _ hch))]
    cases htl : tamperSnapshot st.submissions s.id v with
    | nil =>
        have hmem : (if s.id = s.id then { s with data_snapshot := v } else s) ∈
            tamperSnapshot st.submissions s.id v := List.mem_map_of_mem _ hs
        rw [htl] at hmem
        cases hmem
    | cons a t =>
        rw [htl] at hmap
        exact hmap

set_option maxRecDepth 400000 in
/-- C4 witness: the S5 scenario — submission 1 of the two-submission store
with its snapshot's `cost` rewritten from 89 to 1. -/
theorem tamper_detection_witness :
    collecte_verify_single (tamperSnapshot stC2.submissions 1 snapTampered) 1 =
      .checked false 1 (subC1.integrity_hash.getD "")
    ∧ (collecte_verify (tamperSnapshot stC2.submissions 1 snapTampered)).valid =
      false
    ∧ brokenPairs (collecte_verify (tamperSnapshot stC2.submissions 1
        snapTampered)) = [(1, "hash_mismatch")] :=
  tamper_detection stC2
    (Reachable.stepSubmit .nofail decAll stC1 vinC "service" submitterC dataC2
      "1.2.3.4" nowC2 "2025-08-01"
      (Reachable.stepSubmit .nofail decAll initState vinC "service" submitterC
        dataC "1.2.3.4" nowC "2025-06-15" Reachable.init))
    1 snapTampered subC1
    (headD_mem _ _ (List.length_pos.mp (by decide)))
    (by decide)
    (by decide)

set_option maxRecDepth 400000 in
/-- C4 counterexample: in the same concrete tamper scenario a next
submission exists (chain length 2), yet `verifyAll` reports *only* the
`hash_mismatch` at id 1 — no `chain_break` entry at id 2, contrary to the
claim — because row 2 still links to row 1's untouched stored hash. -/
theorem tamper_detection_counterexample :
    (collecte_verify tamperedSubs).chain_length = 2
    ∧ brokenPairs (collecte_verify tamperedSubs) = [(1, "hash_mismatch")]
    ∧ ((collecte_verify tamperedSubs).broken_links.filter
        (fun b => b.error = "chain_break")).length = 0 := by
  decide

/- ## Claim C7: batch ingest is row-isolated -/

theorem mem_addStrField (row : Row) (acc : List (String × Json)) (k : String)
    (kv : String × Json) (h : kv ∈ addStrField row acc k) :
    kv ∈ acc ∨ ∃ s, kv = (k, .str s) := by
  unfold addStrField at h
  split at h
  · rcases List.mem_append.mp h with h | h
    · exact Or.inl h
    · simp at h
      exact Or.inr ⟨_, h⟩
  · exact Or.inl h

theorem mem_addBoolField (row : Row) (acc : List (String × Json)) (k : String)
    (kv : String × Json) (h : kv ∈ addBoolField row acc k) :
    kv ∈ acc ∨ ∃ b, kv = (k, .bool b) := by
  unfold addBoolField at h
  split at h
  · rcases List.mem_append.mp h with h | h
    · exact Or.inl h
    · simp at h
      exact Or.inr ⟨_, h⟩
  · exact Or.inl h

theorem parseNumField_int (v : String) (j : Json) (h : parseNumField v = some j) :
    ∃ n, j = .int n := by
  unfold parseNumField at h
  split at h
  · cases h
  · rcases Option.map_eq_some'.mp h with ⟨n, -, rfl⟩
    exact ⟨n, rfl⟩

theorem mem_addNumField (row : Row) (acc : List (String × Json)) (k : String)
    (kv : String × Json) (h : kv ∈ addNumField row acc k) :
    kv ∈ acc ∨ ∃ n, kv = (k, .int n) := by
  unfold addNumField at h
  split at h
  · split at h
    · rename_i j hj
      rcases List.mem_append.mp h with h | h
      · exact Or.inl h
      · simp at h
        rcases parseNumField_int _ _ hj with ⟨n, rfl⟩
        exact Or.inr ⟨n, h⟩
    · exact Or.inl h
  · exact Or.inl h

theorem mem_foldl_addStrField : ∀ (ks : List String) (row : Row)
    (acc : List (String × Json)) (kv : String × Json),
    kv ∈ List.foldl (addStrField row) acc ks →
    kv ∈ acc ∨ ∃ k ∈ ks, ∃ s, kv = (k, .str s) := by
  intro ks
  induction ks with
  | nil => intro _ acc kv h; exact Or.inl h
  | cons k ks ih =>
      intro row acc kv h
      rw [List.foldl_cons] at h
      rcases ih _ _ _ h with h1 | h1
      · rcases mem_addStrField _ _ _ _ h1 with h2 | h2
        · exact Or.inl h2
        · exact Or.inr ⟨k, List.mem_cons_self _ _, h2⟩
      · rcases h1 with ⟨k2, hk2, s, hs⟩
        exact Or.inr ⟨k2, List.mem_cons_of_mem _ hk2, s, hs⟩

theorem mem_foldl_addBoolField : ∀ (ks : List String) (row : Row)
    (acc : List (String × Json)) (kv : String × Json),
    kv ∈ List.foldl (addBoolField row) acc ks →
    kv ∈ acc ∨ ∃ k ∈ ks, ∃ b, kv = (k, .bool b) := by
  intro ks
  induction ks with
  | nil => intro _ acc kv h; exact Or.inl h
  | cons k ks ih =>
      intro row acc kv h
      rw [List.foldl_cons] at h
      rcases ih _ _ _ h with h1 | h1
      · rcases mem_addBoolField _ _ _ _ h1 with h2 | h2
        · exact Or.inl h2
        · exact Or.inr ⟨k, List.mem_cons_self _ _, h2⟩
      · rcases h1 with ⟨k2, hk2, b, hb⟩
        exact Or.inr ⟨k2, List.mem_cons_of_mem _ hk2, b, hb⟩

theorem odoFieldOk_of_key (k : String) (j : Json)
    (h1 : k ≠ "odometer_km") (h2 : k ≠ "odometer_at_import") :
    OdoFieldOk (k, j) :=
  ⟨fun hc => absurd hc h1, h2⟩

theorem csv_data_fields (row : Row) (rt : String) :
    ∃ l, _csv_row_to_data row rt = Json.obj l ∧ ∀ kv ∈ l, OdoFieldOk kv := by
  refine ⟨_, rfl, ?_⟩
  intro kv hkv
  rcases List.mem_append.mp hkv with h | h
  · rcases mem_addNumField _ _ _ _ h with h | ⟨n, rfl⟩
    · rcases mem_addNumField _ _ _ _ h with h | ⟨n, rfl⟩
      · rcases mem_addStrField _ _ _ _ h with h | ⟨s, rfl⟩
        · rcases mem_addStrField _ _ _ _ h with h | ⟨s, rfl⟩
          · rcases mem_addStrField _ _ _ _ h with h | ⟨s, rfl⟩
            · rcases mem_addStrField _ _ _ _ h with h | ⟨s, rfl⟩
              · cases h
              · exact odoFieldOk_of_key _ _ (by decide) (by decide)
            · exact odoFieldOk_of_key _ _ (by decide) (by decide)
          · exact odoFieldOk_of_key _ _ (by decide) (by decide)
        · exact odoFieldOk_of_key _ _ (by decide) (by decide)
      · exact ⟨fun _ => ⟨n, rfl⟩,
          show ("odometer_km" : String) ≠ "odometer_at_import" by decide⟩
    · exact odoFieldOk_of_key _ _ (by decide) (by decide)
  · split at h
    · rcases mem_addNumField _ _ _ _ h with h | ⟨n, rfl⟩
      · rcases mem_foldl_addBoolField _ _ _ _ h with h | ⟨k, hk, b, rfl⟩
        · rcases mem_foldl_addStrField _ _ _ _ h with h | ⟨k, hk, s, rfl⟩
          · cases h
          · refine odoFieldOk_of_key _ _ ?_ ?_ <;>
              (intro hc; subst hc; simp at hk)
        · refine odoFieldOk_of_key _ _ ?_ ?_ <;>
            (intro hc; subst hc; simp at hk)
      · exact odoFieldOk_of_key _ _ (by decide) (by decide)
    · split at h
      · rcases mem_foldl_addStrField _ _ _ _ h with h | ⟨k, hk, s, rfl⟩
        · cases h
        · refine odoFieldOk_of_key _ _ ?_ ?_ <;>
            (intro hc; subst hc; simp at hk)
      · split at h
        · rcases mem_addNumField _ _ _ _ h with h | ⟨n, rfl⟩
          · rcases mem_foldl_addStrField _ _ _ _ h with h | ⟨k, hk, s, rfl⟩
            · cases h
            · refine odoFieldOk_of_key _ _ ?_ ?_ <;>
                (intro hc; subst hc; simp at hk)
          · exact odoFieldOk_of_key _ _ (by decide) (by decide)
        · split at h
          · rcases mem_foldl_addStrField _ _ _ _ h with h | ⟨k, hk, s, rfl⟩
            · cases h
            · refine odoFieldOk_of_key _ _ ?_ ?_ <;>
                (intro hc; subst hc; simp at hk)
          · split at h
            · rcases mem_foldl_addStrField _ _ _ _ h with h | ⟨k, hk, s, rfl⟩
              · cases h
              · refine odoFieldOk_of_key _ _ ?_ ?_ <;>
                  (intro hc; subst hc; simp at hk)
            · cases h

theorem jget_of_pairs (data : Json) (l : List (String × Json))
    (hdata : data = Json.obj l) (hall : ∀ kv ∈ l, OdoFieldOk kv) :
    (jget data "odometer_km" = none ∨
      ∃ n, jget data "odometer_km" = some (.int n))
    ∧ jget data "odometer_at_import" = none := by
  subst hdata
  constructor
  · cases hf : l.find? (fun kv => kv.1 = "odometer_km") with
    | none =>
        left
        unfold jget
        dsimp only
        rw [hf]
        rfl
    | some kv =>
        right
        have hmem := List.mem_of_find?_eq_some hf
        have hkey : kv.1 = "odometer_km" := by
          have := List.find?_some hf
          simpa using this
        rcases (hall kv hmem).1 hkey with ⟨n, hn⟩
        refine ⟨n, ?_⟩
        unfold jget
        dsimp only
        rw [hf]
        show some kv.2 = some (Json.int n)
        rw [hn]
  · unfold jget
    dsimp only
    rw [List.find?_eq_none.mpr]
    · rfl
    · intro kv hkv
      simpa using (hall kv hkv).2

theorem get_or_create_ok (dec : String → Bool) (st : State) (vin : String)
    (hd : dec vin = true) :
    ∃ st1, get_or_create_vehicle dec st vin = (st1, true) := by
  unfold get_or_create_vehicle
  split
  · exact ⟨st, rfl⟩
  · exact ⟨_, rfl⟩

theorem submitCoreF_ok (st : State) (vin report_type : String)
    (submitter data : Json) (ip now today : String)
    (hodo : jget data "odometer_km" = none ∨
      ∃ n, jget data "odometer_km" = some (.int n))
    (himp : jget data "odometer_at_import" = none) :
    ∃ st2, submitCoreF .nofail st vin report_type submitter data ip now today =
      (st2, .ok st.nextSubmissionId
        (compute_integrity_hash st.nextSubmissionId vin report_type
          (data_snapshotOf vin report_type submitter data ip now)
          (get_last_hash st.submissions) now)) := by
  unfold submitCoreF postCommit
  rw [if_neg (by decide :
    ¬ (FailPoint.nofail = .atHashUpdate ∨ FailPoint.nofail = .atDetailInsert))]
  dsimp only
  rcases hodo with h1 | ⟨n, h1⟩
  · have hov : pyOr (jgetD data "odometer_km" .null)
        (jgetD data "odometer_at_import" .null) = .null := by
      simp [pyOr, jgetD, h1, himp, truthy]
    rw [hov]
    exact ⟨_, rfl⟩
  · by_cases hn : n = 0
    · have hov : pyOr (jgetD data "odometer_km" .null)
          (jgetD data "odometer_at_import" .null) = .null := by
        simp [pyOr, jgetD, h1, himp, truthy, hn]
      rw [hov]
      exact ⟨_, rfl⟩
    · have hov : pyOr (jgetD data "odometer_km" .null)
          (jgetD data "odometer_at_import" .null) = .int n := by
        simp [pyOr, jgetD, h1, himp, truthy, hn]
      rw [hov]
      have htr : truthy (Json.int n) = true := by
        simp [truthy, hn]
      rw [if_pos htr]
      dsimp only [pyToInt]
      rw [if_neg (by decide : ¬ FailPoint.nofail = .atOdometerInsert)]
      exact ⟨_, rfl⟩

theorem process_single_ok (dec : String → Bool) (st : State)
    (vinRaw report_type : String) (submitter data : Json) (ip now today : String)
    (hv : validate_vin (pyUpper (pyStrip vinRaw)))
    (ht : valid_types.contains report_type)
    (hd : dec (pyUpper (pyStrip vinRaw)) = true)
    (hodo : jget data "odometer_km" = none ∨
      ∃ n, jget data "odometer_km" = some (.int n))
    (himp : jget data "odometer_at_import" = none) :
    ∃ st2 sid h, _process_single_submissionF .nofail dec st vinRaw report_type
      submitter data ip now today = (st2, .ok sid h) := by
  unfold _process_single_submissionF
  dsimp only
  rw [if_neg (not_not_intro hv)]
  rw [if_neg (not_not_intro ht)]
  obtain ⟨st1, hveh⟩ := get_or_create_ok dec st (pyUpper (pyStrip vinRaw)) hd
  rw [hveh]
  dsimp only
  obtain ⟨st2, hcore⟩ := submitCoreF_ok st1 (pyUpper (pyStrip vinRaw)) report_type
    submitter data ip now today hodo himp
  rw [hcore]
  exact ⟨st2, _, _, rfl⟩

theorem processCsvRows_good : ∀ (rows : List Row) (dec : String → Bool)
    (submitter : Json) (ip now today : String) (st : State) (i : Nat),
    (∀ r ∈ rows, RowGood dec r) →
    (processCsvRows dec submitter ip now today st i rows).2.1.length = rows.length
    ∧ (processCsvRows dec submitter ip now today st i rows).2.2 = [] := by
  intro rows
  induction rows with
  | nil => intro _ _ _ _ _ _ _ _; exact ⟨rfl, rfl⟩
  | cons r rest ih =>
      intro dec submitter ip now today st i h
      have hg := h r (List.mem_cons_self _ _)
      unfold processCsvRows
      dsimp only
      have hne : ¬ pyUpper (rget (normalizeRow r) "vin") = "" := hg.1
      rw [if_neg hne]
      obtain ⟨l, hl, hall⟩ :=
        csv_data_fields (normalizeRow r)
          (_auto_detect_report_type (normalizeRow r))
      obtain ⟨hodo, himp⟩ := jget_of_pairs _ l hl hall
      obtain ⟨st2, sid, hh, hproc⟩ := process_single_ok dec st (rowVin r)
        (_auto_detect_report_type (normalizeRow r)) submitter
        (_csv_row_to_data (normalizeRow r) (_auto_detect_report_type (normalizeRow r)))
        ip now today hg.2.1 hg.2.2.1 hg.2.2.2 hodo himp
      unfold rowVin at hproc
      rw [hproc]
      dsimp only
      rcases hrec : processCsvRows dec submitter ip now today st2 (i + 1) rest
        with ⟨st3, rs, es⟩
      have ihres := ih dec submitter ip now today st2 (i + 1)
        (fun x hx => h x (List.mem_cons_of_mem _ hx))
      rw [hrec] at ihres
      simp only [List.length_cons]
      exact ⟨by rw [ihres.1], ihres.2⟩

/-- C7: the CSV batch loop is row-isolated — for every batch with exactly
one failing row (a present but malformed VIN) among otherwise good rows,
processing yields one successful submission per good row (the failure
aborts nothing) and exactly one error entry, carrying the row's CSV line
number, its VIN, and the failure message. -/
theorem csv_row_isolation (dec : String → Bool) (submitter : Json)
    (ip now today : String) (pre : List Row) (bad : Row) (post : List Row)
    (hgood : ∀ r ∈ pre ++ post, RowGood dec r) (hbad : RowBadVin bad) :
    ∀ (st : State) (i0 : Nat),
    (processCsvRows dec submitter ip now today st i0
      (pre ++ bad :: post)).2.1.length = pre.length + post.length
    ∧ (processCsvRows dec submitter ip now today st i0
        (pre ++ bad :: post)).2.2 =
      [⟨i0 + pre.length + 2, some (rowVin bad),
        "VIN invalide: " ++ pyUpper (pyStrip (rowVin bad))⟩] := by
  induction pre with
  | nil =>
      intro st i0
      rw [List.nil_append]
      unfold processCsvRows
      dsimp only
      have hbne : ¬ pyUpper (rget (normalizeRow bad) "vin") = "" := hbad.1
      rw [if_neg hbne]
      have hfail : _process_single_submissionF .nofail dec st (rowVin bad)
          (_auto_detect_report_type (normalizeRow bad)) submitter
          (_csv_row_to_data (normalizeRow bad)
            (_auto_detect_report_type (normalizeRow bad))) ip now today =
          (st, .fail ("VIN invalide: " ++ pyUpper (pyStrip (rowVin bad)))) := by
        unfold _process_single_submissionF
        rw [if_pos hbad.2]
      unfold rowVin at hfail
      rw [hfail]
      dsimp only
      rcases hrec : processCsvRows dec submitter ip now today st (i0 + 1) post
        with ⟨st3, rs, es⟩
      have ihres := processCsvRows_good post dec submitter ip now today st
        (i0 + 1) (by simpa using hgood)
      rw [hrec] at ihres
      refine ⟨by simpa using ihres.1, ?_⟩
      rw [ihres.2]
      simp
      exact ⟨rfl, rfl⟩
  | cons r pre ih =>
      intro st i0
      have hg := hgood r (List.mem_cons_self _ _)
      rw [List.cons_append]
      unfold processCsvRows
      dsimp only
      have hne : ¬ pyUpper (rget (normalizeRow r) "vin") = "" := hg.1
      rw [if_neg hne]
      obtain ⟨l, hl, hall⟩ :=
        csv_data_fields (normalizeRow r)
          (_auto_detect_report_type (normalizeRow r))
      obtain ⟨hodo, himp⟩ := jget_of_pairs _ l hl hall
      obtain ⟨st2, sid, hh, hproc⟩ := process_single_ok dec st (rowVin r)
        (_auto_detect_report_type (normalizeRow r)) submitter
        (_csv_row_to_data (normalizeRow r) (_auto_detect_report_type (normalizeRow r)))
        ip now today hg.2.1 hg.2.2.1 hg.2.2.2 hodo himp
      unfold rowVin at hproc
      rw [hproc]
      dsimp only
      rcases hrec : processCsvRows dec submitter ip now today st2 (i0 + 1)
        (pre ++ bad :: post) with ⟨st3, rs, es⟩
      have ihres := ih (fun x hx => hgood x (List.mem_cons_of_mem _ hx)) st2 (i0 + 1)
      rw [hrec] at ihres
      have hnum : i0 + 1 + pre.length + 2 = i0 + (pre.length + 1) + 2 := by omega
      rw [hnum] at ihres
      simp only [List.length_cons]
      have h1 : rs.length = pre.length + post.length := ihres.1
      exact ⟨by omega, ihres.2⟩

/-- C7 witness: a three-row batch — good service row, malformed VIN, good
service row — yields two submissions and one error entry at CSV line 3. -/
theorem csv_row_isolation_witness :
    (processCsvRows decAll submitterC "1.2.3.4" nowC "2025-06-15" initState 0
      ([[("vin", "2HGFC2F59MH528491"), ("date", "2025-06-15"),
         ("odometer_km", "45000"), ("service_type", "oil_change")]] ++
       [("vin", "SHORT"), ("date", "2025-01-01")] ::
       [[("vin", "1FTFW1ET5EKE12345"), ("date", "2025-03-20"),
         ("odometer_km", "82000"), ("service_type", "brakes")]])).2.1.length = 2
    ∧ (processCsvRows decAll submitterC "1.2.3.4" nowC "2025-06-15" initState 0
      ([[("vin", "2HGFC2F59MH528491"), ("date", "2025-06-15"),
         ("odometer_km", "45000"), ("service_type", "oil_change")]] ++
       [("vin", "SHORT"), ("date", "2025-01-01")] ::
       [[("vin", "1FTFW1ET5EKE12345"), ("date", "2025-03-20"),
         ("odometer_km", "82000"), ("service_type", "brakes")]])).2.2 =
      [⟨0 + 1 + 2, some (rowVin [("vin", "SHORT"), ("date", "2025-01-01")]),
        "VIN invalide: " ++
          pyUpper (pyStrip (rowVin [("vin", "SHORT"), ("date", "2025-01-01")]))⟩] :=
  csv_row_isolation decAll submitterC "1.2.3.4" nowC "2025-06-15"
    [[("vin", "2HGFC2F59MH528491"), ("date", "2025-06-15"),
      ("odometer_km", "45000"), ("service_type", "oil_change")]]
    [("vin", "SHORT"), ("date", "2025-01-01")]
    [[("vin", "1FTFW1ET5EKE12345"), ("date", "2025-03-20"),
      ("odometer_km", "82000"), ("service_type", "brakes")]]
    (by
      intro r hr
      rcases List.mem_append.mp hr with h | h <;>
        rcases List.mem_singleton.mp h with rfl <;>
        exact ⟨by decide, by decide, by decide, by decide⟩)
    ⟨by decide, by decide⟩ initState 0

end AutoVerif
